import Mathlib

/-!
# The Terminal.app cell colour quantizer of hiptext (`macterm.cc`)

A shallow embedding of `MactermColor::MactermColor(const Pixel& top, const Pixel& bot)`
and of the palette `macterm_colors[2][256]`, followed by theorems about them.

Conventions of the embedding.

* A `double` value is the rational it denotes; infinities and NaN are outside the model.
  Comparisons of doubles are exact. The six sums of the `choices` array are IEEE sums:
  `localsWith add` and `MactermColor.withAdd add` take the sum as a parameter, `double_add` is
  the binary64 sum, and `locals` and `MactermColor.MactermColor` are the instance with the
  exact sum, used for the properties that hold whatever the rounding of the six sums.
* `Pixel::Distance` lives in `pixel.h`, which is not part of the sources; it is a parameter
  `Distance : Pixel → Pixel → ℚ`, with `Distance self other` standing for `self.Distance(other)`.
* An array access is a partial lookup: an index outside the declared bounds yields `none`, as
  does reaching `CHECK(false)`.
-/

set_option linter.dupNamespace false

namespace Macterm

/-- Modelled from the spec: the `Pixel` class of `pixel.h` is not among the sources. The spec's
Color is an RGB triple of 8-bit channel values plus the distinguished transparent/unset sentinel
(`Pixel::kClear`). Channels are natural numbers, as written in the table initialisers. -/
inductive Pixel where
  | kClear
  | rgb (red green blue : Nat)
  deriving DecidableEq

/-- Modelled from the spec: the glyph constants of `macterm.h`, which is not among the sources.
The spec's glyph selector is a four-member enumeration
(upper-half-block, lower-half-block, full-block, blank). -/
inductive Symbol where
  | kUpperHalfBlock
  | kLowerHalfBlock
  | kFullBlock
  | kSpace
  deriving DecidableEq

/-- A value of the C++ type `const Pixel [2][256]`: two rows of 256 pixels each. -/
structure Palette where
  row0 : List Pixel
  row1 : List Pixel
  len0 : row0.length = 256
  len1 : row1.length = 256

/-- The array access `colors[r][code]`; `none` when an index is out of bounds. -/
def Palette.lookup (colors : Palette) (r code : Nat) : Option Pixel :=
  match r with
  | 0 => colors.row0.get? code
  | 1 => colors.row1.get? code
  | _ => none

/-- The initialiser of `macterm_colors[0]` (the table under `// Foreground`), entry by entry. -/
def macterm_colors_fg : List Pixel := [
  Pixel.kClear, Pixel.rgb 192 55 41, Pixel.rgb 48 187 49, Pixel.rgb 173 172 53,
  Pixel.rgb 73 76 224, Pixel.rgb 209 65 209, Pixel.rgb 60 187 199, Pixel.rgb 203 204 205,
  Pixel.rgb 154 155 156, Pixel.rgb 249 59 44, Pixel.rgb 62 229 55, Pixel.rgb 234 234 62,
  Pixel.rgb 89 63 251, Pixel.rgb 247 67 245, Pixel.rgb 48 239 239, Pixel.rgb 233 235 235,
  Pixel.rgb 47 49 49, Pixel.rgb 60 46 142, Pixel.rgb 67 51 180, Pixel.rgb 74 56 218,
  Pixel.rgb 82 62 248, Pixel.rgb 89 63 251, Pixel.rgb 46 127 43, Pixel.rgb 46 127 127,
  Pixel.rgb 49 127 167, Pixel.rgb 60 127 207, Pixel.rgb 63 127 241, Pixel.rgb 70 126 251,
  Pixel.rgb 57 161 50, Pixel.rgb 47 161 122, Pixel.rgb 50 161 161, Pixel.rgb 60 161 200,
  Pixel.rgb 53 161 237, Pixel.rgb 65 160 252, Pixel.rgb 45 194 51, Pixel.rgb 58 194 118,
  Pixel.rgb 51 194 156, Pixel.rgb 59 194 194, Pixel.rgb 48 194 233, Pixel.rgb 63 194 252,
  Pixel.rgb 62 227 55, Pixel.rgb 55 227 115, Pixel.rgb 48 227 151, Pixel.rgb 63 227 189,
  Pixel.rgb 52 227 227, Pixel.rgb 66 227 253, Pixel.rgb 51 252 57, Pixel.rgb 53 252 111,
  Pixel.rgb 63 252 147, Pixel.rgb 58 252 184, Pixel.rgb 59 252 222, Pixel.rgb 62 253 251,
  Pixel.rgb 138 49 43, Pixel.rgb 134 55 134, Pixel.rgb 134 58 174, Pixel.rgb 133 61 213,
  Pixel.rgb 134 67 244, Pixel.rgb 134 65 251, Pixel.rgb 125 124 46, Pixel.rgb 124 125 125,
  Pixel.rgb 122 125 165, Pixel.rgb 123 126 205, Pixel.rgb 124 126 243, Pixel.rgb 125 125 251,
  Pixel.rgb 120 159 47, Pixel.rgb 118 159 121, Pixel.rgb 118 159 160, Pixel.rgb 117 160 199,
  Pixel.rgb 118 160 238, Pixel.rgb 119 160 252, Pixel.rgb 115 193 53, Pixel.rgb 113 193 117,
  Pixel.rgb 114 193 155, Pixel.rgb 111 193 193, Pixel.rgb 113 194 232, Pixel.rgb 112 193 252,
  Pixel.rgb 110 226 53, Pixel.rgb 108 226 114, Pixel.rgb 110 226 151, Pixel.rgb 106 226 189,
  Pixel.rgb 105 227 227, Pixel.rgb 105 226 252, Pixel.rgb 99 251 59, Pixel.rgb 103 251 111,
  Pixel.rgb 104 251 146, Pixel.rgb 97 252 184, Pixel.rgb 102 252 221, Pixel.rgb 98 254 250,
  Pixel.rgb 175 54 40, Pixel.rgb 172 58 130, Pixel.rgb 170 61 170, Pixel.rgb 170 66 210,
  Pixel.rgb 169 67 245, Pixel.rgb 168 69 251, Pixel.rgb 164 123 47, Pixel.rgb 162 123 124,
  Pixel.rgb 161 124 163, Pixel.rgb 161 124 203, Pixel.rgb 160 125 238, Pixel.rgb 160 125 251,
  Pixel.rgb 158 157 47, Pixel.rgb 157 158 120, Pixel.rgb 157 158 159, Pixel.rgb 155 158 198,
  Pixel.rgb 155 159 236, Pixel.rgb 155 158 252, Pixel.rgb 153 192 55, Pixel.rgb 152 192 117,
  Pixel.rgb 151 192 154, Pixel.rgb 151 192 193, Pixel.rgb 150 192 231, Pixel.rgb 150 192 251,
  Pixel.rgb 148 225 53, Pixel.rgb 147 225 114, Pixel.rgb 146 225 150, Pixel.rgb 147 226 188,
  Pixel.rgb 145 226 226, Pixel.rgb 145 226 250, Pixel.rgb 142 251 61, Pixel.rgb 141 251 111,
  Pixel.rgb 141 252 146, Pixel.rgb 142 253 183, Pixel.rgb 139 254 221, Pixel.rgb 138 255 249,
  Pixel.rgb 211 59 40, Pixel.rgb 209 63 126, Pixel.rgb 207 63 166, Pixel.rgb 206 64 206,
  Pixel.rgb 205 69 243, Pixel.rgb 204 72 252, Pixel.rgb 202 121 45, Pixel.rgb 201 122 122,
  Pixel.rgb 200 122 161, Pixel.rgb 199 123 200, Pixel.rgb 199 124 238, Pixel.rgb 197 124 252,
  Pixel.rgb 197 156 51, Pixel.rgb 195 156 119, Pixel.rgb 195 157 157, Pixel.rgb 194 157 196,
  Pixel.rgb 193 157 234, Pixel.rgb 193 157 252, Pixel.rgb 191 190 54, Pixel.rgb 190 190 116,
  Pixel.rgb 189 191 153, Pixel.rgb 190 191 191, Pixel.rgb 188 191 229, Pixel.rgb 187 191 251,
  Pixel.rgb 186 224 55, Pixel.rgb 185 224 113, Pixel.rgb 184 224 150, Pixel.rgb 184 224 187,
  Pixel.rgb 184 225 225, Pixel.rgb 182 224 251, Pixel.rgb 180 253 62, Pixel.rgb 180 253 111,
  Pixel.rgb 179 253 146, Pixel.rgb 179 253 183, Pixel.rgb 179 254 220, Pixel.rgb 177 252 249,
  Pixel.rgb 244 59 43, Pixel.rgb 243 62 123, Pixel.rgb 241 65 162, Pixel.rgb 241 69 202,
  Pixel.rgb 240 70 238, Pixel.rgb 238 69 252, Pixel.rgb 239 119 50, Pixel.rgb 238 120 120,
  Pixel.rgb 236 121 159, Pixel.rgb 235 121 198, Pixel.rgb 235 123 236, Pixel.rgb 234 123 252,
  Pixel.rgb 234 154 53, Pixel.rgb 233 154 118, Pixel.rgb 232 155 156, Pixel.rgb 231 155 194,
  Pixel.rgb 231 156 233, Pixel.rgb 230 156 252, Pixel.rgb 229 188 53, Pixel.rgb 228 189 115,
  Pixel.rgb 227 189 152, Pixel.rgb 227 189 190, Pixel.rgb 226 189 228, Pixel.rgb 225 189 253,
  Pixel.rgb 223 222 60, Pixel.rgb 223 223 113, Pixel.rgb 222 223 149, Pixel.rgb 222 223 186,
  Pixel.rgb 222 223 224, Pixel.rgb 220 223 252, Pixel.rgb 218 251 61, Pixel.rgb 217 251 109,
  Pixel.rgb 217 251 145, Pixel.rgb 217 251 182, Pixel.rgb 216 251 219, Pixel.rgb 216 251 250,
  Pixel.rgb 252 63 43, Pixel.rgb 252 64 120, Pixel.rgb 252 64 159, Pixel.rgb 252 65 198,
  Pixel.rgb 252 67 236, Pixel.rgb 252 72 252, Pixel.rgb 253 117 47, Pixel.rgb 253 118 118,
  Pixel.rgb 253 119 156, Pixel.rgb 253 120 194, Pixel.rgb 253 120 233, Pixel.rgb 252 121 252,
  Pixel.rgb 253 152 49, Pixel.rgb 252 152 116, Pixel.rgb 252 153 153, Pixel.rgb 253 153 192,
  Pixel.rgb 252 154 229, Pixel.rgb 251 154 251, Pixel.rgb 253 186 56, Pixel.rgb 251 187 114,
  Pixel.rgb 251 187 151, Pixel.rgb 252 187 188, Pixel.rgb 252 188 226, Pixel.rgb 251 188 251,
  Pixel.rgb 251 221 61, Pixel.rgb 250 221 112, Pixel.rgb 250 221 148, Pixel.rgb 250 221 185,
  Pixel.rgb 251 222 222, Pixel.rgb 251 222 251, Pixel.rgb 251 250 58, Pixel.rgb 250 250 109,
  Pixel.rgb 249 250 144, Pixel.rgb 247 251 181, Pixel.rgb 247 253 218, Pixel.rgb 254 255 255,
  Pixel.rgb 52 53 53, Pixel.rgb 57 58 59, Pixel.rgb 66 67 67, Pixel.rgb 75 76 76,
  Pixel.rgb 84 85 85, Pixel.rgb 92 93 94, Pixel.rgb 101 102 102, Pixel.rgb 109 111 111,
  Pixel.rgb 118 119 119, Pixel.rgb 126 127 128, Pixel.rgb 134 136 136, Pixel.rgb 143 144 145,
  Pixel.rgb 151 152 153, Pixel.rgb 159 161 161, Pixel.rgb 167 169 169, Pixel.rgb 176 177 177,
  Pixel.rgb 184 185 186, Pixel.rgb 192 193 194, Pixel.rgb 200 201 202, Pixel.rgb 208 209 210,
  Pixel.rgb 216 218 218, Pixel.rgb 224 226 226, Pixel.rgb 232 234 234, Pixel.rgb 240 242 242
]

/-- The initialiser of `macterm_colors[1]` (the table under `// Background`), entry by entry. -/
def macterm_colors_bg : List Pixel := [
  Pixel.kClear, Pixel.rgb 151 4 12, Pixel.rgb 23 164 26, Pixel.rgb 153 152 29,
  Pixel.rgb 8 43 181, Pixel.rgb 177 25 176, Pixel.rgb 26 166 177, Pixel.rgb 191 191 191,
  Pixel.rgb 132 132 132, Pixel.rgb 227 10 23, Pixel.rgb 33 215 38, Pixel.rgb 229 228 49,
  Pixel.rgb 11 36 251, Pixel.rgb 227 35 227, Pixel.rgb 39 229 228, Pixel.rgb 230 229 230,
  Pixel.rgb 0 0 0, Pixel.rgb 1 7 93, Pixel.rgb 3 14 133, Pixel.rgb 5 21 172,
  Pixel.rgb 7 28 211, Pixel.rgb 11 36 251, Pixel.rgb 8 94 11, Pixel.rgb 10 95 95,
  Pixel.rgb 11 96 133, Pixel.rgb 13 97 173, Pixel.rgb 15 99 212, Pixel.rgb 18 101 251,
  Pixel.rgb 17 134 20, Pixel.rgb 18 134 96, Pixel.rgb 18 135 134, Pixel.rgb 20 136 173,
  Pixel.rgb 21 137 212, Pixel.rgb 23 138 251, Pixel.rgb 25 173 29, Pixel.rgb 26 174 98,
  Pixel.rgb 26 174 136, Pixel.rgb 27 175 174, Pixel.rgb 28 175 213, Pixel.rgb 30 176 252,
  Pixel.rgb 33 213 38, Pixel.rgb 34 213 101, Pixel.rgb 34 214 137, Pixel.rgb 35 214 175,
  Pixel.rgb 36 215 214, Pixel.rgb 37 215 253, Pixel.rgb 41 253 47, Pixel.rgb 42 253 104,
  Pixel.rgb 42 253 140, Pixel.rgb 43 253 177, Pixel.rgb 44 254 215, Pixel.rgb 45 255 254,
  Pixel.rgb 94 2 4, Pixel.rgb 94 8 94, Pixel.rgb 94 15 133, Pixel.rgb 94 22 172,
  Pixel.rgb 95 29 211, Pixel.rgb 95 36 251, Pixel.rgb 95 94 14, Pixel.rgb 95 95 95,
  Pixel.rgb 95 96 134, Pixel.rgb 95 97 173, Pixel.rgb 96 99 212, Pixel.rgb 96 101 251,
  Pixel.rgb 96 134 22, Pixel.rgb 96 134 96, Pixel.rgb 96 135 135, Pixel.rgb 97 136 173,
  Pixel.rgb 97 137 212, Pixel.rgb 97 138 252, Pixel.rgb 98 173 30, Pixel.rgb 98 174 98,
  Pixel.rgb 98 174 136, Pixel.rgb 98 175 174, Pixel.rgb 98 176 213, Pixel.rgb 99 177 252,
  Pixel.rgb 100 213 39, Pixel.rgb 100 213 101, Pixel.rgb 100 214 138, Pixel.rgb 100 214 176,
  Pixel.rgb 101 215 214, Pixel.rgb 101 215 253, Pixel.rgb 102 253 48, Pixel.rgb 103 253 104,
  Pixel.rgb 103 253 140, Pixel.rgb 103 253 177, Pixel.rgb 103 254 215, Pixel.rgb 104 255 254,
  Pixel.rgb 133 3 9, Pixel.rgb 133 10 94, Pixel.rgb 134 16 133, Pixel.rgb 134 23 172,
  Pixel.rgb 134 30 212, Pixel.rgb 134 37 251, Pixel.rgb 134 94 18, Pixel.rgb 134 95 96,
  Pixel.rgb 134 96 134, Pixel.rgb 134 97 173, Pixel.rgb 135 99 212, Pixel.rgb 135 101 251,
  Pixel.rgb 135 134 25, Pixel.rgb 135 134 97, Pixel.rgb 135 135 135, Pixel.rgb 135 136 174,
  Pixel.rgb 135 137 213, Pixel.rgb 136 138 252, Pixel.rgb 136 173 32, Pixel.rgb 136 174 99,
  Pixel.rgb 136 174 136, Pixel.rgb 136 175 175, Pixel.rgb 136 176 213, Pixel.rgb 137 177 252,
  Pixel.rgb 137 213 40, Pixel.rgb 137 213 102, Pixel.rgb 138 214 138, Pixel.rgb 138 214 176,
  Pixel.rgb 138 215 214, Pixel.rgb 138 216 253, Pixel.rgb 139 253 49, Pixel.rgb 139 253 105,
  Pixel.rgb 139 253 140, Pixel.rgb 139 254 178, Pixel.rgb 140 254 216, Pixel.rgb 140 255 254,
  Pixel.rgb 173 6 15, Pixel.rgb 173 12 95, Pixel.rgb 173 18 134, Pixel.rgb 173 24 173,
  Pixel.rgb 173 31 212, Pixel.rgb 174 38 251, Pixel.rgb 173 95 22, Pixel.rgb 174 95 96,
  Pixel.rgb 174 96 135, Pixel.rgb 174 98 173, Pixel.rgb 174 99 212, Pixel.rgb 174 101 252,
  Pixel.rgb 174 134 28, Pixel.rgb 174 135 98, Pixel.rgb 174 135 136, Pixel.rgb 174 136 174,
  Pixel.rgb 174 137 213, Pixel.rgb 175 139 252, Pixel.rgb 175 174 35, Pixel.rgb 175 174 100,
  Pixel.rgb 175 174 137, Pixel.rgb 175 175 175, Pixel.rgb 175 176 214, Pixel.rgb 175 177 253,
  Pixel.rgb 176 213 43, Pixel.rgb 176 213 102, Pixel.rgb 176 214 139, Pixel.rgb 176 214 176,
  Pixel.rgb 176 215 215, Pixel.rgb 176 216 253, Pixel.rgb 177 253 51, Pixel.rgb 177 253 105,
  Pixel.rgb 177 253 141, Pixel.rgb 177 254 178, Pixel.rgb 178 254 216, Pixel.rgb 178 255 254,
  Pixel.rgb 213 9 21, Pixel.rgb 213 15 96, Pixel.rgb 213 20 135, Pixel.rgb 241 69 202,
  Pixel.rgb 213 32 212, Pixel.rgb 213 39 251, Pixel.rgb 213 95 27, Pixel.rgb 213 96 97,
  Pixel.rgb 213 97 135, Pixel.rgb 213 98 174, Pixel.rgb 213 100 213, Pixel.rgb 213 102 252,
  Pixel.rgb 213 134 32, Pixel.rgb 213 135 99, Pixel.rgb 213 135 136, Pixel.rgb 214 136 175,
  Pixel.rgb 214 137 213, Pixel.rgb 214 139 252, Pixel.rgb 214 174 38, Pixel.rgb 214 174 101,
  Pixel.rgb 214 175 138, Pixel.rgb 214 175 176, Pixel.rgb 214 176 214, Pixel.rgb 214 177 253,
  Pixel.rgb 215 213 45, Pixel.rgb 215 214 103, Pixel.rgb 215 214 139, Pixel.rgb 215 214 177,
  Pixel.rgb 215 215 215, Pixel.rgb 215 216 254, Pixel.rgb 216 253 53, Pixel.rgb 216 253 106,
  Pixel.rgb 216 253 141, Pixel.rgb 216 254 178, Pixel.rgb 216 254 216, Pixel.rgb 216 255 255,
  Pixel.rgb 252 13 27, Pixel.rgb 252 18 98, Pixel.rgb 252 22 135, Pixel.rgb 252 28 174,
  Pixel.rgb 252 34 213, Pixel.rgb 252 40 252, Pixel.rgb 252 96 32, Pixel.rgb 252 96 99,
  Pixel.rgb 252 97 136, Pixel.rgb 253 99 175, Pixel.rgb 253 100 213, Pixel.rgb 253 102 252,
  Pixel.rgb 253 135 36, Pixel.rgb 253 135 100, Pixel.rgb 253 136 137, Pixel.rgb 253 137 175,
  Pixel.rgb 253 138 214, Pixel.rgb 253 139 253, Pixel.rgb 253 174 42, Pixel.rgb 253 174 102,
  Pixel.rgb 253 175 138, Pixel.rgb 253 175 176, Pixel.rgb 253 176 215, Pixel.rgb 254 177 253,
  Pixel.rgb 254 213 48, Pixel.rgb 254 214 105, Pixel.rgb 254 214 140, Pixel.rgb 254 215 177,
  Pixel.rgb 254 215 216, Pixel.rgb 254 216 254, Pixel.rgb 255 253 56, Pixel.rgb 255 253 108,
  Pixel.rgb 255 253 142, Pixel.rgb 255 254 179, Pixel.rgb 255 254 217, Pixel.rgb 255 255 255,
  Pixel.rgb 8 8 8, Pixel.rgb 18 18 18, Pixel.rgb 28 28 28, Pixel.rgb 38 38 38,
  Pixel.rgb 48 48 48, Pixel.rgb 58 58 58, Pixel.rgb 68 68 68, Pixel.rgb 78 78 78,
  Pixel.rgb 88 88 88, Pixel.rgb 98 98 98, Pixel.rgb 108 108 108, Pixel.rgb 118 118 118,
  Pixel.rgb 128 128 128, Pixel.rgb 138 138 138, Pixel.rgb 148 148 148, Pixel.rgb 158 158 158,
  Pixel.rgb 168 168 168, Pixel.rgb 178 178 178, Pixel.rgb 188 188 188, Pixel.rgb 198 198 198,
  Pixel.rgb 208 208 208, Pixel.rgb 218 218 218, Pixel.rgb 228 228 228, Pixel.rgb 238 238 238
]

/-- The palette `macterm_colors[2][256]` of `macterm.cc`. -/
def macterm_colors : Palette :=
  { row0 := macterm_colors_fg, row1 := macterm_colors_bg, len0 := by decide!, len1 := by decide! }

/-- The local `struct Match { uint8_t code; double dist; }`. -/
structure Match where
  code : Nat
  dist : ℚ
  deriving DecidableEq

/-- The fields `symbol_`, `fg_`, `bg_` set by the constructor. -/
structure MactermColor where
  symbol_ : Symbol
  fg_ : Nat
  bg_ : Nat
  deriving DecidableEq

/-- One iteration of a scan loop over table `r`, on the pair (best for `top`, best for `bot`).
The assignment of the `int code` to the `uint8_t` field is the reduction modulo 256. -/
def scanBody (Distance : Pixel → Pixel → ℚ) (colors : Palette) (r : Nat) (top bot : Pixel)
    (best : Match × Match) (code : Nat) : Option (Match × Match) := do
  let p ← colors.lookup r code
  let dist := Distance top p
  let best_top := if dist < best.1.dist then { code := code % 256, dist := dist } else best.1
  let q ← colors.lookup r code
  let dist := Distance bot q
  let best_bot := if dist < best.2.dist then { code := code % 256, dist := dist } else best.2
  pure (best_top, best_bot)

/-- The loop `for (int code = 16; code < 256; ++code)` over table `r`, started from
`{0, 1e6}` for both matches. -/
def scan (Distance : Pixel → Pixel → ℚ) (colors : Palette) (r : Nat) (top bot : Pixel) :
    Option (Match × Match) :=
  (List.range' 16 (256 - 16)).foldlM (scanBody Distance colors r top bot)
    ({ code := 0, dist := 1000000 }, { code := 0, dist := 1000000 })

/-- The constructor's local variables just before the `switch`. -/
structure Locals where
  best_fg_top : Match
  best_fg_bot : Match
  best_bg_top : Match
  best_bg_bot : Match
  choices : List ℚ
  deriving DecidableEq

/-- The constructor body up to the `switch`: the two scan loops and the `choices` array, with
the six totals as exact sums (`localsWith` has the sum as a parameter). -/
def locals (Distance : Pixel → Pixel → ℚ) (colors : Palette) (top bot : Pixel) :
    Option Locals := do
  let (best_fg_top, best_fg_bot) ← scan Distance colors 0 top bot
  let (best_bg_top, best_bg_bot) ← scan Distance colors 1 top bot
  let c2 ← colors.lookup 0 best_fg_top.code
  let c3 ← colors.lookup 0 best_fg_bot.code
  let c4 ← colors.lookup 1 best_bg_top.code
  let c5 ← colors.lookup 1 best_bg_bot.code
  pure
    { best_fg_top := best_fg_top
      best_fg_bot := best_fg_bot
      best_bg_top := best_bg_top
      best_bg_bot := best_bg_bot
      choices :=
        [best_fg_top.dist + best_bg_bot.dist,
         best_bg_top.dist + best_fg_bot.dist,
         best_fg_top.dist + Distance bot c2,
         best_fg_bot.dist + Distance top c3,
         best_bg_top.dist + Distance bot c4,
         best_bg_bot.dist + Distance top c5] }

/-- The loop of `std::min_element`: `i` is the position of the next element, `result` the
position of the smallest element so far and `smallest` its value. -/
def min_element_loop : List ℚ → Nat → Nat → ℚ → Nat
  | [], _, result, _ => result
  | x :: xs, i, result, smallest =>
    if x < smallest then min_element_loop xs (i + 1) i x
    else min_element_loop xs (i + 1) result smallest

/-- The value of `distance(choices.begin(), min_element(choices.begin(), choices.end()))`: the
position of the first smallest element (0 for an empty range, where `min_element` returns
`last`). -/
def min_element : List ℚ → Nat
  | [] => 0
  | x :: xs => min_element_loop xs 1 0 x

/-- The `switch` on the selected position; `default: CHECK(false)` is `none`. -/
def dispatch (L : Locals) (s : Nat) : Option MactermColor :=
  match s with
  | 0 => some { symbol_ := .kUpperHalfBlock, fg_ := L.best_fg_top.code, bg_ := L.best_bg_bot.code }
  | 1 => some { symbol_ := .kLowerHalfBlock, fg_ := L.best_fg_bot.code, bg_ := L.best_bg_top.code }
  | 2 => some { symbol_ := .kFullBlock, fg_ := L.best_fg_top.code, bg_ := L.best_fg_top.code }
  | 3 => some { symbol_ := .kFullBlock, fg_ := L.best_fg_bot.code, bg_ := L.best_fg_bot.code }
  | 4 => some { symbol_ := .kSpace, fg_ := L.best_bg_top.code, bg_ := L.best_bg_top.code }
  | 5 => some { symbol_ := .kSpace, fg_ := L.best_bg_bot.code, bg_ := L.best_bg_bot.code }
  | _ => none

/-- The constructor `MactermColor::MactermColor(const Pixel& top, const Pixel& bot)`, over a
palette `colors` in the place of `macterm_colors`. -/
def MactermColor.MactermColor (Distance : Pixel → Pixel → ℚ) (colors : Palette)
    (top bot : Pixel) : Option MactermColor := do
  let L ← locals Distance colors top bot
  dispatch L (min_element L.choices)

/-- A sample metric: 0 for identical colours, 1 otherwise. -/
def discreteDistance (p q : Pixel) : ℚ := if p = q then 0 else 1

/-- A sample metric whose non-zero values exceed the scans' initial bound `1e6`:
0 for identical colours, 2000000 otherwise. -/
def farDistance (p q : Pixel) : ℚ := if p = q then 0 else 2000000

/-- The channels of a pixel as rationals (the sentinel reads as black). -/
def Pixel.channels : Pixel → ℚ × ℚ × ℚ
  | .kClear => (0, 0, 0)
  | .rgb r g b => (r, g, b)

/-- A sample metric: the squared Euclidean distance of the RGB channels, plus one when exactly
one of the two colours is the sentinel. -/
def squaredDistance (p q : Pixel) : ℚ :=
  let a := p.channels
  let b := q.channels
  (a.1 - b.1) ^ 2 + (a.2.1 - b.2.1) ^ 2 + (a.2.2 - b.2.2) ^ 2 +
    (if (p = .kClear) = (q = .kClear) then 0 else 1)

/-! ## Auxiliary definitions used to state and prove the properties -/

/-- The entry `colors[r][code]` as a total function: the palette entry whenever `r < 2` and
`code < 256` (and the sentinel outside the array). -/
def Palette.color (colors : Palette) (r code : Nat) : Pixel :=
  (colors.lookup r code).getD Pixel.kClear

/-- A scan of the `n` codes from `lo` on for a single colour, in terms of the candidate
distances `f`. -/
def bestFrom (f : Nat → ℚ) : Nat → Nat → Match → Match
  | _, 0, best => best
  | lo, n + 1, best =>
    bestFrom f (lo + 1) n (if f lo < best.dist then { code := lo % 256, dist := f lo } else best)

/-- The match that a scan loop over table `r` leaves for the colour `c`. -/
@[irreducible]
def bestMatch (Distance : Pixel → Pixel → ℚ) (colors : Palette) (r : Nat) (c : Pixel) : Match :=
  bestFrom (fun j => Distance c (colors.color r j)) 16 240 { code := 0, dist := 1000000 }

/-- Some candidate `j` in 16..255 of table `r` is at distance below the initial bound `1e6`
from `c`. -/
def HasNear (Distance : Pixel → Pixel → ℚ) (colors : Palette) (r : Nat) (c : Pixel) : Prop :=
  ∃ j, 16 ≤ j ∧ j ≤ 255 ∧ Distance c (colors.color r j) < 1000000

/-- The match `m` is the first global minimum of table `r` for the colour `c`: its code is a
candidate, its distance is the distance to that candidate, no candidate is nearer and every
candidate of lower index is strictly farther. -/
def IsFirstBest (Distance : Pixel → Pixel → ℚ) (colors : Palette) (r : Nat) (c : Pixel)
    (m : Match) : Prop :=
  16 ≤ m.code ∧ m.code ≤ 255 ∧ m.dist = Distance c (colors.color r m.code) ∧
    (∀ j, 16 ≤ j → j ≤ 255 → m.dist ≤ Distance c (colors.color r j)) ∧
    (∀ j, 16 ≤ j → j < m.code → m.dist < Distance c (colors.color r j))

/-- The six-row strategy table of the specification, over the four best matches: glyph,
foreground index, background index and total error of row `s`. -/
def specRow (Distance : Pixel → Pixel → ℚ) (colors : Palette) (top bot : Pixel)
    (bestFgTop bestFgBot bestBgTop bestBgBot : Match) (s : Nat) : Option (MactermColor × ℚ) :=
  match s with
  | 0 => some (⟨.kUpperHalfBlock, bestFgTop.code, bestBgBot.code⟩,
      bestFgTop.dist + bestBgBot.dist)
  | 1 => some (⟨.kLowerHalfBlock, bestFgBot.code, bestBgTop.code⟩,
      bestBgTop.dist + bestFgBot.dist)
  | 2 => some (⟨.kFullBlock, bestFgTop.code, bestFgTop.code⟩,
      bestFgTop.dist + Distance bot (colors.color 0 bestFgTop.code))
  | 3 => some (⟨.kFullBlock, bestFgBot.code, bestFgBot.code⟩,
      bestFgBot.dist + Distance top (colors.color 0 bestFgBot.code))
  | 4 => some (⟨.kSpace, bestBgTop.code, bestBgTop.code⟩,
      bestBgTop.dist + Distance bot (colors.color 1 bestBgTop.code))
  | 5 => some (⟨.kSpace, bestBgBot.code, bestBgBot.code⟩,
      bestBgBot.dist + Distance top (colors.color 1 bestBgBot.code))
  | _ => none

/-- The value of `locals` in terms of `bestMatch` and `Palette.color`. -/
def localsValue (Distance : Pixel → Pixel → ℚ) (colors : Palette) (top bot : Pixel) : Locals :=
  { best_fg_top := bestMatch Distance colors 0 top
    best_fg_bot := bestMatch Distance colors 0 bot
    best_bg_top := bestMatch Distance colors 1 top
    best_bg_bot := bestMatch Distance colors 1 bot
    choices :=
      [(bestMatch Distance colors 0 top).dist + (bestMatch Distance colors 1 bot).dist,
       (bestMatch Distance colors 1 top).dist + (bestMatch Distance colors 0 bot).dist,
       (bestMatch Distance colors 0 top).dist +
         Distance bot (colors.color 0 (bestMatch Distance colors 0 top).code),
       (bestMatch Distance colors 0 bot).dist +
         Distance top (colors.color 0 (bestMatch Distance colors 0 bot).code),
       (bestMatch Distance colors 1 top).dist +
         Distance bot (colors.color 1 (bestMatch Distance colors 1 top).code),
       (bestMatch Distance colors 1 bot).dist +
         Distance top (colors.color 1 (bestMatch Distance colors 1 bot).code)] }

/-- The palette of Scenario A: `macterm_colors` with pure red at foreground-role entry 196 and
pure blue at background-role entry 21. -/
def scenarioPalette : Palette :=
  { row0 := macterm_colors_fg.set 196 (Pixel.rgb 255 0 0)
    row1 := macterm_colors_bg.set 21 (Pixel.rgb 0 0 255)
    len0 := by decide!
    len1 := by decide! }


/-- A sample metric whose non-zero value is exactly the scans' initial bound `1e6`:
0 for identical colours, 1000000 otherwise. -/
def boundDistance (p q : Pixel) : ℚ := if p = q then 0 else 1000000

/-- The pixel is an RGB triple whose three channels are in 0..255. -/
def Pixel.isRGB8 : Pixel → Bool
  | .kClear => false
  | .rgb red green blue => decide (red ≤ 255) && decide (green ≤ 255) && decide (blue ≤ 255)

/-- The glyph of the mirrored cell: the two half blocks exchanged, full block and blank
unchanged. -/
def mirror : Symbol → Symbol
  | .kUpperHalfBlock => .kLowerHalfBlock
  | .kLowerHalfBlock => .kUpperHalfBlock
  | .kFullBlock => .kFullBlock
  | .kSpace => .kSpace

/-- The strategy that takes the place of strategy `s` when top and bottom are exchanged:
0 and 1, 2 and 3, 4 and 5 are exchanged. -/
def swapStrategy : Nat → Nat
  | 0 => 1
  | 1 => 0
  | 2 => 3
  | 3 => 2
  | 4 => 5
  | 5 => 4
  | s => s

/-- The outcome of the scan of table `r` for the colour `c`, as a property of the match `m` it
leaves: the code is a candidate exactly when some candidate is below `1e6`; and when every
candidate is at distance `1e6` or more, `m` is the initial `{0, 1e6}`, its distance is at most
every candidate's, and it is no candidate's distance if all of them are strictly above
`1e6`. -/
def ScanOutcome (Distance : Pixel → Pixel → ℚ) (colors : Palette) (r : Nat) (c : Pixel)
    (m : Match) : Prop :=
  ((16 ≤ m.code ∧ m.code ≤ 255) ↔ HasNear Distance colors r c) ∧
    ((∀ j, 16 ≤ j → j ≤ 255 → (1000000 : ℚ) ≤ Distance c (colors.color r j)) →
      m = { code := 0, dist := 1000000 } ∧
        (∀ j, 16 ≤ j → j ≤ 255 → m.dist ≤ Distance c (colors.color r j)) ∧
        ((∀ j, 16 ≤ j → j ≤ 255 → (1000000 : ℚ) < Distance c (colors.color r j)) →
          ∀ j, 16 ≤ j → j ≤ 255 → m.dist ≠ Distance c (colors.color r j)))

/-- A Color of the specification, that is a value the program can hold in a `Pixel`: the
sentinel, or an RGB triple of 8-bit channels. -/
def Pixel.isColor : Pixel → Bool
  | .kClear => true
  | .rgb red green blue => decide (red ≤ 255) && decide (green ≤ 255) && decide (blue ≤ 255)

/-- The contract of `Pixel::Distance` that the scans rely on when they start from `1e6` as
their upper bound: between two Colors of the specification the distance is below `1e6` (the
squared Euclidean distance of 8-bit channels is at most 195075). -/
def BelowBound (Distance : Pixel → Pixel → ℚ) : Prop :=
  ∀ p q, p.isColor = true → q.isColor = true → Distance p q < 1000000

/-! ## Double-precision sums

The comparisons of the constructor are exact on doubles, but each of the six totals is an IEEE
sum: the exact sum rounded to the nearest double. `localsWith add` is the constructor body
with the six additions performed by `add`; `locals` is its instance with the exact sum, and
`double_add` is the binary64 sum. -/

/-- The exponent `e` with `2^e ≤ n / d < 2^(e+1)`, for positive `n` and `d` with
`2^(-2048) ≤ n / d < 2^2048`, found by bisection: the largest `k` below 4096 with
`d * 2^k ≤ n * 2^2048`, less 2048. -/
def floorLog2 (n d : Nat) : Int :=
  ([2048, 1024, 512, 256, 128, 64, 32, 16, 8, 4, 2, 1].foldl
    (fun k b => if d * 2 ^ (k + b) ≤ n * 2 ^ 2048 then k + b else k) 0 : Nat) - 2048

/-- The integer nearest to `n / d`, the even one when two are equally near. -/
def roundHalfEven (n d : Nat) : Nat :=
  let m := n / d
  let rem := n % d
  if 2 * rem < d then m else if d < 2 * rem then m + 1 else if m % 2 = 0 then m else m + 1

/-- The binary64 value nearest to `x` (round to nearest, ties to even; 53 significant bits),
in the range of normal doubles: subnormals, overflow and NaN are not modelled. With `e` the
exponent of `|x|`, the significand `|x| * 2^(52 - e)` is rounded to an integer. -/
def roundDouble (x : ℚ) : ℚ :=
  if x = 0 then 0
  else
    let n : Nat := x.num.natAbs
    let d : Nat := x.den
    let s : Int := 52 - floorLog2 n d
    let sign : Int := if 0 ≤ x.num then 1 else -1
    if 0 ≤ s then mkRat (sign * (roundHalfEven (n * 2 ^ s.toNat) d : Int)) (2 ^ s.toNat)
    else mkRat (sign * ((roundHalfEven n (d * 2 ^ (-s).toNat) * 2 ^ (-s).toNat : Nat) : Int)) 1

/-- The IEEE double sum `a + b`. -/
def double_add (a b : ℚ) : ℚ := roundDouble (a + b)

/-- The IEEE double difference `a - b`. -/
def double_sub (a b : ℚ) : ℚ := roundDouble (a - b)

/-- The IEEE double product `a * b`. -/
def double_mul (a b : ℚ) : ℚ := roundDouble (a * b)

/-- The IEEE double quotient `a / b`. -/
def double_div (a b : ℚ) : ℚ := roundDouble (a / b)

/-- A sample metric computed in doubles: the squared Euclidean distance of the channels
scaled to the unit interval, `(r/255 - r'/255)^2 + (g/255 - g'/255)^2 + (b/255 - b'/255)^2`,
every operation rounded (the sentinel reads as black). -/
def normalisedDistance (p q : Pixel) : ℚ :=
  let a := p.channels
  let b := q.channels
  let dr := double_sub (double_div a.1 255) (double_div b.1 255)
  let dg := double_sub (double_div a.2.1 255) (double_div b.2.1 255)
  let db := double_sub (double_div a.2.2 255) (double_div b.2.2 255)
  double_add (double_add (double_mul dr dr) (double_mul dg dg)) (double_mul db db)

/-- The constructor body up to the `switch`, with the six additions of the `choices` array
performed by `add`. -/
def localsWith (add : ℚ → ℚ → ℚ) (Distance : Pixel → Pixel → ℚ) (colors : Palette)
    (top bot : Pixel) : Option Locals := do
  let (best_fg_top, best_fg_bot) ← scan Distance colors 0 top bot
  let (best_bg_top, best_bg_bot) ← scan Distance colors 1 top bot
  let c2 ← colors.lookup 0 best_fg_top.code
  let c3 ← colors.lookup 0 best_fg_bot.code
  let c4 ← colors.lookup 1 best_bg_top.code
  let c5 ← colors.lookup 1 best_bg_bot.code
  pure
    { best_fg_top := best_fg_top
      best_fg_bot := best_fg_bot
      best_bg_top := best_bg_top
      best_bg_bot := best_bg_bot
      choices :=
        [add best_fg_top.dist best_bg_bot.dist,
         add best_bg_top.dist best_fg_bot.dist,
         add best_fg_top.dist (Distance bot c2),
         add best_fg_bot.dist (Distance top c3),
         add best_bg_top.dist (Distance bot c4),
         add best_bg_bot.dist (Distance top c5)] }

/-- The constructor with the six additions performed by `add`. -/
def MactermColor.withAdd (add : ℚ → ℚ → ℚ) (Distance : Pixel → Pixel → ℚ) (colors : Palette)
    (top bot : Pixel) : Option Macterm.MactermColor := do
  let L ← localsWith add Distance colors top bot
  dispatch L (min_element L.choices)

/-- The value of `localsWith` in terms of `bestMatch` and `Palette.color`. -/
def localsValueWith (add : ℚ → ℚ → ℚ) (Distance : Pixel → Pixel → ℚ) (colors : Palette)
    (top bot : Pixel) : Locals :=
  { best_fg_top := bestMatch Distance colors 0 top
    best_fg_bot := bestMatch Distance colors 0 bot
    best_bg_top := bestMatch Distance colors 1 top
    best_bg_bot := bestMatch Distance colors 1 bot
    choices :=
      [add (bestMatch Distance colors 0 top).dist (bestMatch Distance colors 1 bot).dist,
       add (bestMatch Distance colors 1 top).dist (bestMatch Distance colors 0 bot).dist,
       add (bestMatch Distance colors 0 top).dist
         (Distance bot (colors.color 0 (bestMatch Distance colors 0 top).code)),
       add (bestMatch Distance colors 0 bot).dist
         (Distance top (colors.color 0 (bestMatch Distance colors 0 bot).code)),
       add (bestMatch Distance colors 1 top).dist
         (Distance bot (colors.color 1 (bestMatch Distance colors 1 top).code)),
       add (bestMatch Distance colors 1 bot).dist
         (Distance top (colors.color 1 (bestMatch Distance colors 1 bot).code))] }

/-! ## Lemmas on the palette and the scans -/

theorem lookup_isSome_iff (colors : Palette) (r code : Nat) :
    (colors.lookup r code).isSome ↔ (r < 2 ∧ code < 256) := by
  have h0 := colors.len0
  have h1 := colors.len1
  unfold Palette.lookup
  match r with
  | 0 =>
    rcases h : colors.row0.get? code with _ | p
    · simp; rw [List.get?_eq_none] at h; omega
    · simp; have := (List.get?_eq_some.1 h).1; omega
  | 1 =>
    rcases h : colors.row1.get? code with _ | p
    · simp; rw [List.get?_eq_none] at h; omega
    · simp; have := (List.get?_eq_some.1 h).1; omega
  | r + 2 => simp

theorem lookup_eq_color (colors : Palette) {r code : Nat} (hr : r < 2) (hc : code < 256) :
    colors.lookup r code = some (colors.color r code) := by
  have h := (lookup_isSome_iff colors r code).2 ⟨hr, hc⟩
  unfold Palette.color
  rcases hl : colors.lookup r code with _ | p
  · rw [hl] at h; simp at h
  · rfl

theorem scanBody_eq (Distance : Pixel → Pixel → ℚ) (colors : Palette) {r : Nat} (hr : r < 2)
    (top bot : Pixel) (best : Match × Match) {code : Nat} (hc : code < 256) :
    scanBody Distance colors r top bot best code =
      some (if Distance top (colors.color r code) < best.1.dist
              then { code := code % 256, dist := Distance top (colors.color r code) } else best.1,
            if Distance bot (colors.color r code) < best.2.dist
              then { code := code % 256, dist := Distance bot (colors.color r code) }
              else best.2) := by
  unfold scanBody
  rw [lookup_eq_color colors hr hc]
  rfl

theorem foldlM_scanBody (Distance : Pixel → Pixel → ℚ) (colors : Palette) {r : Nat} (hr : r < 2)
    (top bot : Pixel) :
    ∀ (n lo : Nat) (b1 b2 : Match), lo + n ≤ 256 →
      (List.range' lo n).foldlM (scanBody Distance colors r top bot) (b1, b2) =
        some (bestFrom (fun j => Distance top (colors.color r j)) lo n b1,
              bestFrom (fun j => Distance bot (colors.color r j)) lo n b2) := by
  intro n
  induction n with
  | zero => intro lo b1 b2 _; rfl
  | succ n ih =>
    intro lo b1 b2 h
    have hlo : lo < 256 := by omega
    rw [List.range'_succ, List.foldlM_cons, scanBody_eq Distance colors hr top bot _ hlo]
    simp only [Option.bind_eq_bind, Option.some_bind]
    rw [ih (lo + 1) _ _ (by omega)]
    rfl

theorem scan_eq (Distance : Pixel → Pixel → ℚ) (colors : Palette) {r : Nat} (hr : r < 2)
    (top bot : Pixel) :
    scan Distance colors r top bot =
      some (bestMatch Distance colors r top, bestMatch Distance colors r bot) := by
  unfold scan bestMatch
  exact foldlM_scanBody Distance colors hr top bot 240 16 _ _ (by omega)

/-- What a single-colour scan returns: either the initial match, when no scanned candidate is
below its distance, or the first candidate of least distance. -/
theorem bestFrom_spec (f : Nat → ℚ) :
    ∀ (n lo : Nat) (b : Match),
      (bestFrom f lo n b = b ∧ ∀ j, lo ≤ j → j < lo + n → b.dist ≤ f j) ∨
      (∃ k, lo ≤ k ∧ k < lo + n ∧ bestFrom f lo n b = { code := k % 256, dist := f k } ∧
        f k < b.dist ∧ (∀ j, lo ≤ j → j < k → f k < f j) ∧
        (∀ j, k ≤ j → j < lo + n → f k ≤ f j)) := by
  intro n
  induction n with
  | zero =>
    intro lo b
    exact Or.inl ⟨rfl, fun j h1 h2 => by omega⟩
  | succ n ih =>
    intro lo b
    by_cases h : f lo < b.dist
    · have hb : bestFrom f lo (n + 1) b = bestFrom f (lo + 1) n { code := lo % 256, dist := f lo } := by
        simp [bestFrom, h]
      rw [hb]
      rcases ih (lo + 1) { code := lo % 256, dist := f lo } with ⟨e, hall⟩ | ⟨k, hk1, hk2, e, hlt, hbefore, hafter⟩
      · refine Or.inr ⟨lo, le_refl _, by omega, e, h, fun j h1 h2 => by omega, ?_⟩
        intro j h1 h2
        rcases Nat.eq_or_lt_of_le h1 with rfl | h3
        · exact le_refl _
        · exact hall j h3 (by omega)
      · refine Or.inr ⟨k, by omega, by omega, e, lt_trans hlt h, ?_, fun j h1 h2 => hafter j h1 (by omega)⟩
        intro j h1 h2
        rcases Nat.eq_or_lt_of_le h1 with rfl | h3
        · exact hlt
        · exact hbefore j h3 h2
    · have hb : bestFrom f lo (n + 1) b = bestFrom f (lo + 1) n b := by
        simp [bestFrom, h]
      rw [hb]
      have hle : b.dist ≤ f lo := not_lt.1 h
      rcases ih (lo + 1) b with ⟨e, hall⟩ | ⟨k, hk1, hk2, e, hlt, hbefore, hafter⟩
      · refine Or.inl ⟨e, ?_⟩
        intro j h1 h2
        rcases Nat.eq_or_lt_of_le h1 with rfl | h3
        · exact hle
        · exact hall j h3 (by omega)
      · refine Or.inr ⟨k, by omega, by omega, e, hlt, ?_, fun j h1 h2 => hafter j h1 (by omega)⟩
        intro j h1 h2
        rcases Nat.eq_or_lt_of_le h1 with rfl | h3
        · exact lt_of_lt_of_le hlt hle
        · exact hbefore j h3 h2

/-- The two outcomes of a scan loop for one colour. -/
theorem bestMatch_cases (Distance : Pixel → Pixel → ℚ) (colors : Palette) (r : Nat) (c : Pixel) :
    (bestMatch Distance colors r c = { code := 0, dist := 1000000 } ∧
      ∀ j, 16 ≤ j → j ≤ 255 → (1000000 : ℚ) ≤ Distance c (colors.color r j)) ∨
    (IsFirstBest Distance colors r c (bestMatch Distance colors r c) ∧
      (bestMatch Distance colors r c).dist < 1000000) := by
  unfold bestMatch
  rcases bestFrom_spec (fun j => Distance c (colors.color r j)) 240 16 { code := 0, dist := 1000000 }
    with ⟨e, hall⟩ | ⟨k, hk1, hk2, e, hlt, hbefore, hafter⟩
  · exact Or.inl ⟨e, fun j h1 h2 => hall j h1 (by omega)⟩
  · right
    have hk : k % 256 = k := Nat.mod_eq_of_lt (by omega)
    rw [hk] at e
    rw [e]
    refine ⟨⟨hk1, (by show k ≤ 255; omega), rfl, ?_, fun j h1 h2 => hbefore j h1 h2⟩, hlt⟩
    intro j h1 h2
    by_cases hj : j < k
    · exact le_of_lt (hbefore j h1 hj)
    · exact hafter j (by omega) (by omega)

theorem bestMatch_code_le (Distance : Pixel → Pixel → ℚ) (colors : Palette) (r : Nat)
    (c : Pixel) : (bestMatch Distance colors r c).code ≤ 255 := by
  rcases bestMatch_cases Distance colors r c with ⟨e, _⟩ | ⟨h, _⟩
  · rw [e]; exact Nat.zero_le _
  · exact h.2.1

theorem bestMatch_dist_le (Distance : Pixel → Pixel → ℚ) (colors : Palette) (r : Nat)
    (c : Pixel) {j : Nat} (h1 : 16 ≤ j) (h2 : j ≤ 255) :
    (bestMatch Distance colors r c).dist ≤ Distance c (colors.color r j) := by
  rcases bestMatch_cases Distance colors r c with ⟨e, hall⟩ | ⟨h, _⟩
  · rw [e]; exact hall j h1 h2
  · exact h.2.2.2.1 j h1 h2

theorem bestMatch_isFirstBest (Distance : Pixel → Pixel → ℚ) (colors : Palette) (r : Nat)
    (c : Pixel) (h : HasNear Distance colors r c) :
    IsFirstBest Distance colors r c (bestMatch Distance colors r c) := by
  rcases bestMatch_cases Distance colors r c with ⟨_, hall⟩ | ⟨hb, _⟩
  · obtain ⟨j, h1, h2, h3⟩ := h
    exact absurd h3 (not_lt.2 (hall j h1 h2))
  · exact hb

theorem locals_eq (Distance : Pixel → Pixel → ℚ) (colors : Palette) (top bot : Pixel) :
    locals Distance colors top bot = some (localsValue Distance colors top bot) := by
  have c1 := bestMatch_code_le Distance colors 0 top
  have c2 := bestMatch_code_le Distance colors 0 bot
  have c3 := bestMatch_code_le Distance colors 1 top
  have c4 := bestMatch_code_le Distance colors 1 bot
  unfold locals
  rw [scan_eq Distance colors (by omega : 0 < 2), scan_eq Distance colors (by omega : 1 < 2)]
  simp only [Option.bind_eq_bind, Option.some_bind]
  rw [lookup_eq_color colors (by omega : 0 < 2) (by omega : (bestMatch Distance colors 0 top).code < 256),
    lookup_eq_color colors (by omega : 0 < 2) (by omega : (bestMatch Distance colors 0 bot).code < 256),
    lookup_eq_color colors (by omega : 1 < 2) (by omega : (bestMatch Distance colors 1 top).code < 256),
    lookup_eq_color colors (by omega : 1 < 2) (by omega : (bestMatch Distance colors 1 bot).code < 256)]
  rfl

/-! ## Lemmas on `min_element` and the `switch` -/

theorem min_element_loop_spec :
    ∀ (xs : List ℚ) (i result : Nat) (smallest : ℚ),
      (min_element_loop xs i result smallest = result ∧
        ∀ j, j < xs.length → smallest ≤ xs.getD j 0) ∨
      (∃ k, k < xs.length ∧ min_element_loop xs i result smallest = i + k ∧
        xs.getD k 0 < smallest ∧ (∀ j, j < k → xs.getD k 0 < xs.getD j 0) ∧
        (∀ j, k ≤ j → j < xs.length → xs.getD k 0 ≤ xs.getD j 0)) := by
  intro xs
  induction xs with
  | nil =>
    intro i result smallest
    exact Or.inl ⟨rfl, fun j h => absurd h (Nat.not_lt_zero j)⟩
  | cons x xs ih =>
    intro i result smallest
    by_cases h : x < smallest
    · have e : min_element_loop (x :: xs) i result smallest = min_element_loop xs (i + 1) i x := by
        simp [min_element_loop, h]
      rw [e]
      rcases ih (i + 1) i x with ⟨e1, hall⟩ | ⟨k, hk, e1, hlt, hbefore, hafter⟩
      · refine Or.inr ⟨0, Nat.succ_pos _, e1, h, fun j hj => absurd hj (Nat.not_lt_zero j), ?_⟩
        intro j _ hj
        cases j with
        | zero => exact le_refl _
        | succ j => exact hall j (Nat.lt_of_succ_lt_succ hj)
      · refine Or.inr ⟨k + 1, Nat.succ_lt_succ hk, by rw [e1]; omega, lt_trans hlt h, ?_, ?_⟩
        · intro j hj
          cases j with
          | zero => exact hlt
          | succ j => exact hbefore j (Nat.lt_of_succ_lt_succ hj)
        · intro j hj1 hj2
          cases j with
          | zero => omega
          | succ j => exact hafter j (Nat.le_of_succ_le_succ hj1) (Nat.lt_of_succ_lt_succ hj2)
    · have e : min_element_loop (x :: xs) i result smallest =
          min_element_loop xs (i + 1) result smallest := by
        simp [min_element_loop, h]
      rw [e]
      have hle : smallest ≤ x := not_lt.1 h
      rcases ih (i + 1) result smallest with ⟨e1, hall⟩ | ⟨k, hk, e1, hlt, hbefore, hafter⟩
      · refine Or.inl ⟨e1, ?_⟩
        intro j hj
        cases j with
        | zero => exact hle
        | succ j => exact hall j (Nat.lt_of_succ_lt_succ hj)
      · refine Or.inr ⟨k + 1, Nat.succ_lt_succ hk, by rw [e1]; omega, hlt, ?_, ?_⟩
        · intro j hj
          cases j with
          | zero => exact lt_of_lt_of_le hlt hle
          | succ j => exact hbefore j (Nat.lt_of_succ_lt_succ hj)
        · intro j hj1 hj2
          cases j with
          | zero => omega
          | succ j => exact hafter j (Nat.le_of_succ_le_succ hj1) (Nat.lt_of_succ_lt_succ hj2)

/-- The position returned by `min_element` on a non-empty range: inside the range, at a
smallest element, and before it every element is strictly larger. -/
theorem min_element_spec (l : List ℚ) (hl : 0 < l.length) :
    min_element l < l.length ∧
      (∀ j, j < l.length → l.getD (min_element l) 0 ≤ l.getD j 0) ∧
      (∀ j, j < min_element l → l.getD (min_element l) 0 < l.getD j 0) := by
  cases l with
  | nil => exact absurd hl (Nat.lt_irrefl 0)
  | cons x xs =>
    rcases min_element_loop_spec xs 1 0 x with ⟨e1, hall⟩ | ⟨k, hk, e1, hlt, hbefore, hafter⟩
    · have e : min_element (x :: xs) = 0 := e1
      rw [e]
      refine ⟨Nat.succ_pos _, ?_, fun j hj => absurd hj (Nat.not_lt_zero j)⟩
      intro j hj
      cases j with
      | zero => exact le_refl _
      | succ j => exact hall j (Nat.lt_of_succ_lt_succ hj)
    · have e : min_element (x :: xs) = k + 1 := by
        show min_element_loop xs 1 0 x = k + 1
        rw [e1]; omega
      rw [e]
      refine ⟨Nat.succ_lt_succ hk, ?_, ?_⟩
      · intro j hj
        cases j with
        | zero => exact le_of_lt hlt
        | succ j =>
          by_cases hjk : j < k
          · exact le_of_lt (hbefore j hjk)
          · exact hafter j (not_lt.1 hjk) (Nat.lt_of_succ_lt_succ hj)
      · intro j hj
        cases j with
        | zero => exact hlt
        | succ j => exact hbefore j (Nat.lt_of_succ_lt_succ hj)

theorem localsValue_length (Distance : Pixel → Pixel → ℚ) (colors : Palette) (top bot : Pixel) :
    (localsValue Distance colors top bot).choices.length = 6 := rfl

theorem localsValue_pos (Distance : Pixel → Pixel → ℚ) (colors : Palette) (top bot : Pixel) :
    0 < (localsValue Distance colors top bot).choices.length := Nat.succ_pos _

theorem min_element_choices_lt (Distance : Pixel → Pixel → ℚ) (colors : Palette)
    (top bot : Pixel) : min_element (localsValue Distance colors top bot).choices < 6 :=
  (min_element_spec _ (localsValue_pos Distance colors top bot)).1

theorem dispatch_specRow (Distance : Pixel → Pixel → ℚ) (colors : Palette) (top bot : Pixel)
    (L : Locals) (s : Nat) (hs : s < 6) :
    ∃ res e, dispatch L s = some res ∧
      specRow Distance colors top bot L.best_fg_top L.best_fg_bot L.best_bg_top L.best_bg_bot s =
        some (res, e) := by
  interval_cases s <;> exact ⟨_, _, rfl, rfl⟩

theorem ctor_eq (Distance : Pixel → Pixel → ℚ) (colors : Palette) (top bot : Pixel) :
    MactermColor.MactermColor Distance colors top bot =
      dispatch (localsValue Distance colors top bot)
        (min_element (localsValue Distance colors top bot).choices) := by
  unfold MactermColor.MactermColor
  rw [locals_eq]
  rfl

/-! ## Lemmas on the selected strategy -/

/-- The constructor's outcome in one statement: the selected position `s` is below 6, the
result is row `s` of the specification's table, and the error `e` of that row is the first
least entry of `choices`. -/
theorem ctor_spec (Distance : Pixel → Pixel → ℚ) (colors : Palette) (top bot : Pixel) :
    ∃ s res e, s = min_element (localsValue Distance colors top bot).choices ∧ s < 6 ∧
      MactermColor.MactermColor Distance colors top bot = some res ∧
      dispatch (localsValue Distance colors top bot) s = some res ∧
      specRow Distance colors top bot (bestMatch Distance colors 0 top)
        (bestMatch Distance colors 0 bot) (bestMatch Distance colors 1 top)
        (bestMatch Distance colors 1 bot) s = some (res, e) ∧
      e = (localsValue Distance colors top bot).choices.getD s 0 ∧
      (∀ j, j < 6 → e ≤ (localsValue Distance colors top bot).choices.getD j 0) ∧
      (∀ j, j < s → e < (localsValue Distance colors top bot).choices.getD j 0) := by
  have hm := min_element_spec (localsValue Distance colors top bot).choices
    (localsValue_pos Distance colors top bot)
  have hc := ctor_eq Distance colors top bot
  generalize min_element (localsValue Distance colors top bot).choices = s at hm hc
  have hs : s < 6 := hm.1
  obtain ⟨res, e, hd, hrow⟩ := dispatch_specRow Distance colors top bot
    (localsValue Distance colors top bot) s hs
  have he : e = (localsValue Distance colors top bot).choices.getD s 0 := by
    interval_cases s <;> simp only [specRow, Option.some.injEq, Prod.mk.injEq] at hrow <;>
      rw [← hrow.2] <;> rfl
  refine ⟨s, res, e, rfl, hs, hc.trans hd, hd, hrow, he, ?_, ?_⟩
  · intro j hj; rw [he]; exact hm.2.1 j hj
  · intro j hj; rw [he]; exact hm.2.2 j hj

theorem bestMatch_dist_nonneg (Distance : Pixel → Pixel → ℚ) (hnn : ∀ p q, 0 ≤ Distance p q)
    (colors : Palette) (r : Nat) (c : Pixel) : 0 ≤ (bestMatch Distance colors r c).dist := by
  rcases bestMatch_cases Distance colors r c with ⟨e, _⟩ | ⟨h, _⟩
  · rw [e]; norm_num
  · rw [h.2.2.1]; exact hnn _ _

/-- For a non-negative metric, the scan stops at the first candidate at distance 0. -/
theorem bestMatch_first_zero (Distance : Pixel → Pixel → ℚ) (hnn : ∀ p q, 0 ≤ Distance p q)
    (colors : Palette) (r : Nat) (c : Pixel) (k : Nat) (hk1 : 16 ≤ k) (hk2 : k ≤ 255)
    (hz : Distance c (colors.color r k) = 0)
    (hfirst : ∀ j, 16 ≤ j → j < k → Distance c (colors.color r j) ≠ 0) :
    bestMatch Distance colors r c = { code := k, dist := 0 } := by
  have hnear : HasNear Distance colors r c := ⟨k, hk1, hk2, by rw [hz]; norm_num⟩
  obtain ⟨h1, h2, h3, h4, h5⟩ := bestMatch_isFirstBest Distance colors r c hnear
  have hd : (bestMatch Distance colors r c).dist = 0 := by
    have hle := h4 k hk1 hk2
    rw [hz] at hle
    have hge : 0 ≤ (bestMatch Distance colors r c).dist := by rw [h3]; exact hnn _ _
    exact le_antisymm hle hge
  have hc : (bestMatch Distance colors r c).code = k := by
    rcases Nat.lt_trichotomy (bestMatch Distance colors r c).code k with hlt | heq | hgt
    · exact absurd (h3.symm.trans hd) (hfirst _ h1 hlt)
    · exact heq
    · have := h5 k hk1 hgt
      rw [hz, hd] at this
      exact absurd this (lt_irrefl _)
  generalize bestMatch Distance colors r c = m at hd hc
  cases m
  simp only at hd hc
  rw [hd, hc]

/-- The fields of a dispatched result are codes of the four matches. -/
theorem dispatch_codes (L : Locals) (s : Nat) (res : MactermColor) (h : dispatch L s = some res) :
    (res.fg_ = L.best_fg_top.code ∨ res.fg_ = L.best_fg_bot.code ∨
      res.fg_ = L.best_bg_top.code ∨ res.fg_ = L.best_bg_bot.code) ∧
    (res.bg_ = L.best_fg_top.code ∨ res.bg_ = L.best_fg_bot.code ∨
      res.bg_ = L.best_bg_top.code ∨ res.bg_ = L.best_bg_bot.code) := by
  unfold dispatch at h
  split at h <;> simp only [Option.some.injEq, reduceCtorEq] at h <;> subst h <;> simp

/-- A dispatch on a position from 2 on yields a solid result, one below 2 a split glyph. -/
theorem dispatch_solid (L : Locals) (s : Nat) (res : MactermColor) (h : dispatch L s = some res) :
    (2 ≤ s → res.fg_ = res.bg_) ∧
      ((res.symbol_ = Symbol.kFullBlock ∨ res.symbol_ = Symbol.kSpace) ↔ 2 ≤ s) := by
  unfold dispatch at h
  split at h <;> simp only [Option.some.injEq, reduceCtorEq] at h <;> subst h <;> simp

theorem bestMatch_dist_le_bound (Distance : Pixel → Pixel → ℚ) (colors : Palette) (r : Nat)
    (c : Pixel) : (bestMatch Distance colors r c).dist ≤ 1000000 := by
  rcases bestMatch_cases Distance colors r c with ⟨e, _⟩ | ⟨_, h⟩
  · rw [e]
  · exact le_of_lt h

theorem bestMatch_of_dist_lt (Distance : Pixel → Pixel → ℚ) (colors : Palette) (r : Nat)
    (c : Pixel) (h : (bestMatch Distance colors r c).dist < 1000000) :
    IsFirstBest Distance colors r c (bestMatch Distance colors r c) := by
  rcases bestMatch_cases Distance colors r c with ⟨e, _⟩ | ⟨hb, _⟩
  · rw [e] at h; exact absurd h (lt_irrefl _)
  · exact hb

theorem bestMatch_dist_lt_of_hasNear (Distance : Pixel → Pixel → ℚ) (colors : Palette) (r : Nat)
    (c : Pixel) (h : HasNear Distance colors r c) :
    (bestMatch Distance colors r c).dist < 1000000 := by
  obtain ⟨j, h1, h2, h3⟩ := h
  exact lt_of_le_of_lt (bestMatch_dist_le Distance colors r c h1 h2) h3

theorem not_hasNear_iff (Distance : Pixel → Pixel → ℚ) (colors : Palette) (r : Nat) (c : Pixel) :
    ¬ HasNear Distance colors r c ↔
      ∀ j, 16 ≤ j → j ≤ 255 → (1000000 : ℚ) ≤ Distance c (colors.color r j) := by
  constructor
  · intro h j h1 h2
    by_contra hlt
    exact h ⟨j, h1, h2, not_le.1 hlt⟩
  · rintro h ⟨j, h1, h2, h3⟩
    exact absurd h3 (not_lt.2 (h j h1 h2))

theorem bestMatch_scanOutcome (Distance : Pixel → Pixel → ℚ) (colors : Palette) (r : Nat)
    (c : Pixel) : ScanOutcome Distance colors r c (bestMatch Distance colors r c) := by
  rcases bestMatch_cases Distance colors r c with ⟨e, hall⟩ | ⟨hb, hlt⟩
  · rw [e]
    refine ⟨⟨fun h => absurd h.1 (by decide), fun h => ?_⟩, fun _ => ⟨rfl, hall, ?_⟩⟩
    · exact absurd h ((not_hasNear_iff Distance colors r c).2 hall)
    · intro hs j h1 h2
      exact ne_of_lt (hs j h1 h2)
  · refine ⟨⟨fun _ => ⟨_, hb.1, hb.2.1, ?_⟩, fun _ => ⟨hb.1, hb.2.1⟩⟩, fun hall => ?_⟩
    · rw [← hb.2.2.1]; exact hlt
    · have := hall _ hb.1 hb.2.1
      rw [← hb.2.2.1] at this
      exact absurd hlt (not_lt.2 this)

theorem bestMatch_code_zero (Distance : Pixel → Pixel → ℚ) (colors : Palette) (r : Nat)
    (c : Pixel) (h : ¬ HasNear Distance colors r c) :
    (bestMatch Distance colors r c).code = 0 := by
  have hm := ((bestMatch_scanOutcome Distance colors r c).2
    ((not_hasNear_iff Distance colors r c).1 h)).1
  rw [hm]

theorem swapStrategy_lt {j : Nat} (h : j < 6) : swapStrategy j < 6 := by
  interval_cases j <;> decide

theorem swapStrategy_swapStrategy {j : Nat} (h : j < 6) : swapStrategy (swapStrategy j) = j := by
  interval_cases j <;> rfl

/-- The totals of the exchanged inputs are those of the original inputs, exchanged in pairs. -/
theorem choices_swap (Distance : Pixel → Pixel → ℚ) (colors : Palette) (top bot : Pixel)
    {j : Nat} (h : j < 6) :
    (localsValue Distance colors bot top).choices.getD j 0 =
      (localsValue Distance colors top bot).choices.getD (swapStrategy j) 0 := by
  interval_cases j <;>
    simp only [localsValue, swapStrategy, List.getD_cons_zero, List.getD_cons_succ] <;>
    first
      | rfl
      | exact add_comm _ _

/-- The results of exchanged strategies on exchanged inputs mirror each other. -/
theorem dispatch_swap (Distance : Pixel → Pixel → ℚ) (colors : Palette) (top bot : Pixel)
    {s : Nat} (res res' : MactermColor)
    (hd : dispatch (localsValue Distance colors top bot) s = some res)
    (hd' : dispatch (localsValue Distance colors bot top) (swapStrategy s) = some res') :
    res'.fg_ = res.fg_ ∧ res'.bg_ = res.bg_ ∧ res'.symbol_ = mirror res.symbol_ := by
  unfold dispatch at hd
  split at hd <;> simp only [Option.some.injEq, reduceCtorEq] at hd <;> subst hd <;>
    simp only [swapStrategy, dispatch, Option.some.injEq] at hd' <;> subst hd' <;>
    exact ⟨rfl, rfl, rfl⟩

/-! ## Lemmas on the distance contract and on the rounded sums -/

theorem channels_bounds (p : Pixel) (h : p.isColor = true) :
    (0 ≤ p.channels.1 ∧ p.channels.1 ≤ 255) ∧ (0 ≤ p.channels.2.1 ∧ p.channels.2.1 ≤ 255) ∧
      (0 ≤ p.channels.2.2 ∧ p.channels.2.2 ≤ 255) := by
  cases p with
  | kClear => simp [Pixel.channels]
  | rgb r g b =>
    simp only [Pixel.isColor, Bool.and_eq_true, decide_eq_true_eq] at h
    obtain ⟨⟨h1, h2⟩, h3⟩ := h
    simp only [Pixel.channels]
    refine ⟨⟨Nat.cast_nonneg r, ?_⟩, ⟨Nat.cast_nonneg g, ?_⟩, ⟨Nat.cast_nonneg b, ?_⟩⟩
    · exact_mod_cast h1
    · exact_mod_cast h2
    · exact_mod_cast h3

theorem sq_sub_le_of_bounds {x y : ℚ} (hx : 0 ≤ x ∧ x ≤ 255) (hy : 0 ≤ y ∧ y ≤ 255) :
    (x - y) ^ 2 ≤ 65025 := by
  have h := sq_le_sq' (by linarith [hx.1, hy.2] : -255 ≤ x - y) (by linarith [hx.2, hy.1] : x - y ≤ 255)
  norm_num at h
  exact h

/-- The squared Euclidean sample metric meets the contract: it is at most 195076. -/
theorem squaredDistance_belowBound : BelowBound squaredDistance := by
  intro p q hp hq
  obtain ⟨p1, p2, p3⟩ := channels_bounds p hp
  obtain ⟨q1, q2, q3⟩ := channels_bounds q hq
  have a1 := sq_sub_le_of_bounds p1 q1
  have a2 := sq_sub_le_of_bounds p2 q2
  have a3 := sq_sub_le_of_bounds p3 q3
  have a4 : (if (p = Pixel.kClear) = (q = Pixel.kClear) then (0 : ℚ) else 1) ≤ 1 := by
    split <;> norm_num
  unfold squaredDistance
  simp only
  linarith

/-- Under the contract, every Color has a candidate of either compiled-in table below
`1e6`: candidate 16. -/
theorem hasNear_of_belowBound (Distance : Pixel → Pixel → ℚ) (hD : BelowBound Distance)
    (r : Nat) (hr : r < 2) (c : Pixel) (hc : c.isColor = true) :
    HasNear Distance macterm_colors r c := by
  have h16 : ∀ r, r < 2 → (macterm_colors.color r 16).isColor = true := by decide!
  exact ⟨16, le_refl _, by omega, hD c _ hc (h16 r hr)⟩

/-- When each of the four scans has some candidate in 16..255 at distance below `1e6`, both
returned indices lie in 16..255. -/
theorem indices_in_range_of_hasNear (Distance : Pixel → Pixel → ℚ) (colors : Palette) (top bot : Pixel)
    (hft : HasNear Distance colors 0 top) (hfb : HasNear Distance colors 0 bot)
    (hbt : HasNear Distance colors 1 top) (hbb : HasNear Distance colors 1 bot) :
    ∃ res, MactermColor.MactermColor Distance colors top bot = some res ∧
      16 ≤ res.fg_ ∧ res.fg_ ≤ 255 ∧ 16 ≤ res.bg_ ∧ res.bg_ ≤ 255 := by
  obtain ⟨s, res, e, _, _, hres, hd, _⟩ := ctor_spec Distance colors top bot
  have h1 := bestMatch_isFirstBest Distance colors 0 top hft
  have h2 := bestMatch_isFirstBest Distance colors 0 bot hfb
  have h3 := bestMatch_isFirstBest Distance colors 1 top hbt
  have h4 := bestMatch_isFirstBest Distance colors 1 bot hbb
  obtain ⟨hf, hb⟩ := dispatch_codes _ s res hd
  have e1 : (localsValue Distance colors top bot).best_fg_top = bestMatch Distance colors 0 top := rfl
  have e2 : (localsValue Distance colors top bot).best_fg_bot = bestMatch Distance colors 0 bot := rfl
  have e3 : (localsValue Distance colors top bot).best_bg_top = bestMatch Distance colors 1 top := rfl
  have e4 : (localsValue Distance colors top bot).best_bg_bot = bestMatch Distance colors 1 bot := rfl
  rw [e1, e2, e3, e4] at hf hb
  refine ⟨res, hres, ?_, ?_, ?_, ?_⟩
  · rcases hf with h | h | h | h <;> rw [h]
    exacts [h1.1, h2.1, h3.1, h4.1]
  · rcases hf with h | h | h | h <;> rw [h]
    exacts [h1.2.1, h2.2.1, h3.2.1, h4.2.1]
  · rcases hb with h | h | h | h <;> rw [h]
    exacts [h1.1, h2.1, h3.1, h4.1]
  · rcases hb with h | h | h | h <;> rw [h]
    exacts [h1.2.1, h2.2.1, h3.2.1, h4.2.1]

/-- For top = bottom = c: with a candidate below `1e6` in at least one table some solid total
is at most both split totals; and a solid total strictly below both split totals makes the
result solid. -/
theorem identical_colors_of_hasNear (Distance : Pixel → Pixel → ℚ) (colors : Palette) (c : Pixel) :
    ∃ L res, locals Distance colors c c = some L ∧
      MactermColor.MactermColor Distance colors c c = some res ∧
      (HasNear Distance colors 0 c ∨ HasNear Distance colors 1 c →
        ∃ s, 2 ≤ s ∧ s < 6 ∧ L.choices.getD s 0 ≤ L.choices.getD 0 0 ∧
          L.choices.getD s 0 ≤ L.choices.getD 1 0) ∧
      ((∃ s, 2 ≤ s ∧ s < 6 ∧ L.choices.getD s 0 < L.choices.getD 0 0 ∧
          L.choices.getD s 0 < L.choices.getD 1 0) →
        (res.symbol_ = Symbol.kFullBlock ∨ res.symbol_ = Symbol.kSpace) ∧
          res.fg_ = res.bg_) := by
  obtain ⟨s0, res, e, _, hs0, hres, hd, _, he, hmin, _⟩ := ctor_spec Distance colors c c
  refine ⟨localsValue Distance colors c c, res, locals_eq Distance colors c c, hres, ?_, ?_⟩
  · intro hnear
    have bf := bestMatch_dist_le_bound Distance colors 0 c
    have bb := bestMatch_dist_le_bound Distance colors 1 c
    by_cases hle : (bestMatch Distance colors 0 c).dist ≤ (bestMatch Distance colors 1 c).dist
    · have hlt : (bestMatch Distance colors 0 c).dist < 1000000 := by
        rcases hnear with h | h
        · exact bestMatch_dist_lt_of_hasNear Distance colors 0 c h
        · exact lt_of_le_of_lt hle (bestMatch_dist_lt_of_hasNear Distance colors 1 c h)
      have e1 := (bestMatch_of_dist_lt Distance colors 0 c hlt).2.2.1
      refine ⟨2, by omega, by omega, ?_, ?_⟩ <;>
        simp only [localsValue, List.getD_cons_zero, List.getD_cons_succ] <;>
        rw [← e1] <;> linarith
    · have hlt : (bestMatch Distance colors 1 c).dist < 1000000 :=
        lt_of_lt_of_le (not_le.1 hle) bf
      have e3 := (bestMatch_of_dist_lt Distance colors 1 c hlt).2.2.1
      have hle2 := le_of_lt (not_le.1 hle)
      refine ⟨4, by omega, by omega, ?_, ?_⟩ <;>
        simp only [localsValue, List.getD_cons_zero, List.getD_cons_succ] <;>
        rw [← e3] <;> linarith
  · rintro ⟨s, hs1, hs2, hlt0, hlt1⟩
    have hes := hmin s hs2
    have h2 : 2 ≤ s0 := by
      by_contra hcon
      have hs01 : s0 = 0 ∨ s0 = 1 := by omega
      rcases hs01 with h | h <;> rw [h] at he <;> rw [he] at hes
      · exact absurd (lt_of_le_of_lt hes hlt0) (lt_irrefl _)
      · exact absurd (lt_of_le_of_lt hes hlt1) (lt_irrefl _)
    obtain ⟨h3, h4⟩ := dispatch_solid _ s0 res hd
    exact ⟨h4.2 h2, h3 h2⟩

theorem localsWith_eq (add : ℚ → ℚ → ℚ) (Distance : Pixel → Pixel → ℚ) (colors : Palette)
    (top bot : Pixel) :
    localsWith add Distance colors top bot =
      some (localsValueWith add Distance colors top bot) := by
  have c1 := bestMatch_code_le Distance colors 0 top
  have c2 := bestMatch_code_le Distance colors 0 bot
  have c3 := bestMatch_code_le Distance colors 1 top
  have c4 := bestMatch_code_le Distance colors 1 bot
  unfold localsWith
  rw [scan_eq Distance colors (by omega : 0 < 2), scan_eq Distance colors (by omega : 1 < 2)]
  simp only [Option.bind_eq_bind, Option.some_bind]
  rw [lookup_eq_color colors (by omega : 0 < 2) (by omega : (bestMatch Distance colors 0 top).code < 256),
    lookup_eq_color colors (by omega : 0 < 2) (by omega : (bestMatch Distance colors 0 bot).code < 256),
    lookup_eq_color colors (by omega : 1 < 2) (by omega : (bestMatch Distance colors 1 top).code < 256),
    lookup_eq_color colors (by omega : 1 < 2) (by omega : (bestMatch Distance colors 1 bot).code < 256)]
  rfl

theorem withAdd_eq (add : ℚ → ℚ → ℚ) (Distance : Pixel → Pixel → ℚ) (colors : Palette)
    (top bot : Pixel) :
    MactermColor.withAdd add Distance colors top bot =
      dispatch (localsValueWith add Distance colors top bot)
        (min_element (localsValueWith add Distance colors top bot).choices) := by
  unfold MactermColor.withAdd
  rw [localsWith_eq]
  rfl

/-- With the exact sum, `localsWith` and `MactermColor.withAdd` are `locals` and the
constructor `MactermColor.MactermColor`. -/
theorem withAdd_exact (Distance : Pixel → Pixel → ℚ) (colors : Palette) (top bot : Pixel) :
    localsWith (fun a b => a + b) Distance colors top bot = locals Distance colors top bot ∧
      MactermColor.withAdd (fun a b => a + b) Distance colors top bot =
        MactermColor.MactermColor Distance colors top bot :=
  ⟨rfl, rfl⟩

/-- The selection on any six totals: the dispatched position is the first least one. -/
theorem select_spec (L : Locals) (h6 : L.choices.length = 6) :
    ∃ s res, s = min_element L.choices ∧ s < 6 ∧ dispatch L s = some res ∧
      (∀ j, j < 6 → L.choices.getD s 0 ≤ L.choices.getD j 0) ∧
      (∀ j, j < s → L.choices.getD s 0 < L.choices.getD j 0) := by
  have hm := min_element_spec L.choices (by rw [h6]; omega)
  rw [h6] at hm
  generalize min_element L.choices = s at hm
  have hd : ∃ res, dispatch L s = some res := by
    have hs := hm.1
    interval_cases s <;> exact ⟨_, rfl⟩
  obtain ⟨res, hres⟩ := hd
  exact ⟨s, res, rfl, hm.1, hres, hm.2.1, hm.2.2⟩

theorem double_add_comm (a b : ℚ) : double_add a b = double_add b a := by
  unfold double_add
  rw [add_comm]

/-- A candidate below `1e6` that is a first minimum of the table is the match of the scan. -/
theorem bestMatch_eq_of_first_min (Distance : Pixel → Pixel → ℚ) (colors : Palette) (r : Nat)
    (c : Pixel) (k : Nat) (d : ℚ) (hk1 : 16 ≤ k) (hk2 : k ≤ 255)
    (hd : Distance c (colors.color r k) = d) (hlt : d < 1000000)
    (hmin : ∀ j, 16 ≤ j → j ≤ 255 → d ≤ Distance c (colors.color r j))
    (hfirst : ∀ j, 16 ≤ j → j < k → d < Distance c (colors.color r j)) :
    bestMatch Distance colors r c = { code := k, dist := d } := by
  have hnear : HasNear Distance colors r c := ⟨k, hk1, hk2, by rw [hd]; exact hlt⟩
  obtain ⟨h1, h2, h3, h4, h5⟩ := bestMatch_isFirstBest Distance colors r c hnear
  have hdist : (bestMatch Distance colors r c).dist = d := by
    apply le_antisymm
    · have := h4 k hk1 hk2
      rw [hd] at this
      exact this
    · rw [h3]; exact hmin _ h1 h2
  have hcode : (bestMatch Distance colors r c).code = k := by
    rcases Nat.lt_trichotomy (bestMatch Distance colors r c).code k with hlt2 | heq | hgt
    · have := hfirst _ h1 hlt2
      rw [← h3, hdist] at this
      exact absurd this (lt_irrefl _)
    · exact heq
    · have := h5 k hk1 hgt
      rw [hd, hdist] at this
      exact absurd this (lt_irrefl _)
  generalize bestMatch Distance colors r c = m at hdist hcode
  cases m
  simp only at hdist hcode
  rw [hdist, hcode]

theorem tie_fg_1 : ∀ j, j < 70 → 16 ≤ j →
    (975727974631227 / 36028797018963968 : ℚ) <
      normalisedDistance (Pixel.rgb 21 57 81) (macterm_colors.color 0 j) := by decide!

theorem tie_fg_2 : ∀ j, j < 124 → 70 ≤ j →
    (975727974631227 / 36028797018963968 : ℚ) <
      normalisedDistance (Pixel.rgb 21 57 81) (macterm_colors.color 0 j) := by decide!

theorem tie_fg_3 : ∀ j, j < 178 → 124 ≤ j →
    (975727974631227 / 36028797018963968 : ℚ) <
      normalisedDistance (Pixel.rgb 21 57 81) (macterm_colors.color 0 j) := by decide!

theorem tie_fg_4 : ∀ j, j < 232 → 178 ≤ j →
    (975727974631227 / 36028797018963968 : ℚ) <
      normalisedDistance (Pixel.rgb 21 57 81) (macterm_colors.color 0 j) := by decide!

theorem tie_fg_5 : ∀ j, j < 256 → 232 ≤ j →
    (975727974631227 / 36028797018963968 : ℚ) ≤
      normalisedDistance (Pixel.rgb 21 57 81) (macterm_colors.color 0 j) := by decide!

theorem tie_bg_1 : ∀ j, j < 23 → 16 ≤ j →
    (7805823797049817 / 288230376151711744 : ℚ) <
      normalisedDistance (Pixel.rgb 21 57 81) (macterm_colors.color 1 j) := by decide!

theorem tie_bg_2 : ∀ j, j < 80 → 23 ≤ j →
    (7805823797049817 / 288230376151711744 : ℚ) ≤
      normalisedDistance (Pixel.rgb 21 57 81) (macterm_colors.color 1 j) := by decide!

theorem tie_bg_3 : ∀ j, j < 140 → 80 ≤ j →
    (7805823797049817 / 288230376151711744 : ℚ) ≤
      normalisedDistance (Pixel.rgb 21 57 81) (macterm_colors.color 1 j) := by decide!

theorem tie_bg_4 : ∀ j, j < 200 → 140 ≤ j →
    (7805823797049817 / 288230376151711744 : ℚ) ≤
      normalisedDistance (Pixel.rgb 21 57 81) (macterm_colors.color 1 j) := by decide!

theorem tie_bg_5 : ∀ j, j < 256 → 200 ≤ j →
    (7805823797049817 / 288230376151711744 : ℚ) ≤
      normalisedDistance (Pixel.rgb 21 57 81) (macterm_colors.color 1 j) := by decide!

/-- The foreground-role scan for (21,57,81) with the normalised metric in doubles. -/
theorem tie_bestMatch_fg :
    bestMatch normalisedDistance macterm_colors 0 (Pixel.rgb 21 57 81) =
      { code := 232, dist := 975727974631227 / 36028797018963968 } := by
  apply bestMatch_eq_of_first_min normalisedDistance macterm_colors 0 _ 232 _ (by omega)
    (by omega) (by decide!) (by norm_num)
  · intro j h1 h2
    by_cases a : j < 70
    · exact le_of_lt (tie_fg_1 j a h1)
    by_cases b : j < 124
    · exact le_of_lt (tie_fg_2 j b (by omega))
    by_cases c : j < 178
    · exact le_of_lt (tie_fg_3 j c (by omega))
    by_cases d : j < 232
    · exact le_of_lt (tie_fg_4 j d (by omega))
    · exact tie_fg_5 j (by omega) (by omega)
  · intro j h1 h2
    by_cases a : j < 70
    · exact tie_fg_1 j a h1
    by_cases b : j < 124
    · exact tie_fg_2 j b (by omega)
    by_cases c : j < 178
    · exact tie_fg_3 j c (by omega)
    · exact tie_fg_4 j h2 (by omega)

/-- The background-role scan for (21,57,81) with the normalised metric in doubles. -/
theorem tie_bestMatch_bg :
    bestMatch normalisedDistance macterm_colors 1 (Pixel.rgb 21 57 81) =
      { code := 23, dist := 7805823797049817 / 288230376151711744 } := by
  apply bestMatch_eq_of_first_min normalisedDistance macterm_colors 1 _ 23 _ (by omega)
    (by omega) (by decide!) (by norm_num)
  · intro j h1 h2
    by_cases a : j < 23
    · exact le_of_lt (tie_bg_1 j a h1)
    by_cases b : j < 80
    · exact tie_bg_2 j b (by omega)
    by_cases c : j < 140
    · exact tie_bg_3 j c (by omega)
    by_cases d : j < 200
    · exact tie_bg_4 j d (by omega)
    · exact tie_bg_5 j (by omega) (by omega)
  · intro j h1 h2
    exact tie_bg_1 j h2 h1

/-! ## The claims -/

/-- C1. Under the distance contract `BelowBound`, for every two Colors top and bottom and each
of the two compiled-in tables (0 foreground role, 1 background role), the match the
constructor computes for the colour `c` is `(k, Distance(c, t[k]))` with `k` in 16..255, of
least distance among the candidates 16..255, and every candidate below `k` is strictly
farther. -/
theorem C1_best_match_is_first_minimum (Distance : Pixel → Pixel → ℚ)
    (hD : BelowBound Distance) (top bot : Pixel) (ht : top.isColor = true)
    (hb : bot.isColor = true) :
    ∃ L, locals Distance macterm_colors top bot = some L ∧
      IsFirstBest Distance macterm_colors 0 top L.best_fg_top ∧
      IsFirstBest Distance macterm_colors 0 bot L.best_fg_bot ∧
      IsFirstBest Distance macterm_colors 1 top L.best_bg_top ∧
      IsFirstBest Distance macterm_colors 1 bot L.best_bg_bot :=
  ⟨localsValue Distance macterm_colors top bot, locals_eq Distance macterm_colors top bot,
    bestMatch_isFirstBest Distance macterm_colors 0 top
      (hasNear_of_belowBound Distance hD 0 (by omega) top ht),
    bestMatch_isFirstBest Distance macterm_colors 0 bot
      (hasNear_of_belowBound Distance hD 0 (by omega) bot hb),
    bestMatch_isFirstBest Distance macterm_colors 1 top
      (hasNear_of_belowBound Distance hD 1 (by omega) top ht),
    bestMatch_isFirstBest Distance macterm_colors 1 bot
      (hasNear_of_belowBound Distance hD 1 (by omega) bot hb)⟩

/-- C1, witness: the squared Euclidean metric meets the contract; top = (250,3,4) and
bottom = (10,20,255) are Colors. -/
theorem C1_witness :
    (BelowBound squaredDistance ∧ (Pixel.rgb 250 3 4).isColor = true ∧
      (Pixel.rgb 10 20 255).isColor = true) ∧
    ∃ L, locals squaredDistance macterm_colors (Pixel.rgb 250 3 4) (Pixel.rgb 10 20 255) = some L ∧
      IsFirstBest squaredDistance macterm_colors 0 (Pixel.rgb 250 3 4) L.best_fg_top ∧
      IsFirstBest squaredDistance macterm_colors 0 (Pixel.rgb 10 20 255) L.best_fg_bot ∧
      IsFirstBest squaredDistance macterm_colors 1 (Pixel.rgb 250 3 4) L.best_bg_top ∧
      IsFirstBest squaredDistance macterm_colors 1 (Pixel.rgb 10 20 255) L.best_bg_bot :=
  ⟨⟨squaredDistance_belowBound, rfl, rfl⟩,
    C1_best_match_is_first_minimum squaredDistance squaredDistance_belowBound _ _ rfl rfl⟩

/-- C2. The position `s` the `switch` dispatches on is a valid strategy number, its total
error `choices[s]` is at most every `choices[j]`, and strictly below `choices[j]` for every
`j < s`: the least total error wins and a tie goes to the lowest-numbered strategy. -/
theorem C2_strategy_is_first_minimum (Distance : Pixel → Pixel → ℚ) (colors : Palette)
    (top bot : Pixel) :
    ∃ L, locals Distance colors top bot = some L ∧ L.choices.length = 6 ∧
      MactermColor.MactermColor Distance colors top bot = dispatch L (min_element L.choices) ∧
      min_element L.choices < 6 ∧
      (∀ j, j < 6 → L.choices.getD (min_element L.choices) 0 ≤ L.choices.getD j 0) ∧
      (∀ j, j < min_element L.choices →
        L.choices.getD (min_element L.choices) 0 < L.choices.getD j 0) := by
  have h := min_element_spec (localsValue Distance colors top bot).choices
    (localsValue_pos Distance colors top bot)
  exact ⟨localsValue Distance colors top bot, locals_eq Distance colors top bot, rfl,
    ctor_eq Distance colors top bot, h.1, h.2.1, h.2.2⟩

/-- C4. Under the distance contract `BelowBound`, for all Colors top and bottom (the sentinel
included), the constructor returns a foreground and a background index that both lie in
16..255; index 0 is not returned. -/
theorem C4_indices_in_range (Distance : Pixel → Pixel → ℚ) (hD : BelowBound Distance)
    (top bot : Pixel) (ht : top.isColor = true) (hb : bot.isColor = true) :
    ∃ res, MactermColor.MactermColor Distance macterm_colors top bot = some res ∧
      16 ≤ res.fg_ ∧ res.fg_ ≤ 255 ∧ 16 ≤ res.bg_ ∧ res.bg_ ≤ 255 :=
  indices_in_range_of_hasNear Distance macterm_colors top bot
    (hasNear_of_belowBound Distance hD 0 (by omega) top ht)
    (hasNear_of_belowBound Distance hD 0 (by omega) bot hb)
    (hasNear_of_belowBound Distance hD 1 (by omega) top ht)
    (hasNear_of_belowBound Distance hD 1 (by omega) bot hb)

/-- C4, witness: the squared Euclidean metric, with the sentinel over the sentinel. -/
theorem C4_witness :
    (BelowBound squaredDistance ∧ Pixel.kClear.isColor = true) ∧
    ∃ res, MactermColor.MactermColor squaredDistance macterm_colors Pixel.kClear Pixel.kClear =
        some res ∧
      16 ≤ res.fg_ ∧ res.fg_ ≤ 255 ∧ 16 ≤ res.bg_ ∧ res.bg_ ≤ 255 :=
  ⟨⟨squaredDistance_belowBound, rfl⟩,
    C4_indices_in_range squaredDistance squaredDistance_belowBound _ _ rfl rfl⟩

/-- C6. Whenever the winning strategy is 2, 3, 4 or 5 the returned foreground index equals
the returned background index, and the returned glyph is the full block or the blank exactly
when the winning strategy is one of these. -/
theorem C6_solid_strategies_share_index (Distance : Pixel → Pixel → ℚ) (colors : Palette)
    (top bot : Pixel) :
    ∃ L res, locals Distance colors top bot = some L ∧
      MactermColor.MactermColor Distance colors top bot = some res ∧
      (2 ≤ min_element L.choices → res.fg_ = res.bg_) ∧
      ((res.symbol_ = Symbol.kFullBlock ∨ res.symbol_ = Symbol.kSpace) ↔
        2 ≤ min_element L.choices) ∧
      (res.symbol_ = Symbol.kFullBlock ∨ res.symbol_ = Symbol.kSpace → res.fg_ = res.bg_) := by
  obtain ⟨s, res, e, hs, _, hres, hd, _⟩ := ctor_spec Distance colors top bot
  obtain ⟨h1, h2⟩ := dispatch_solid _ s res hd
  rw [hs] at h1 h2
  exact ⟨localsValue Distance colors top bot, res, locals_eq Distance colors top bot, hres,
    h1, h2, fun h => h1 (h2.1 h)⟩

/-- C6, witness: for black over black with the discrete metric the winning strategy is 4 and
both indices are 16. -/
theorem C6_witness :
    ∃ L res, locals discreteDistance macterm_colors (Pixel.rgb 0 0 0) (Pixel.rgb 0 0 0) = some L ∧
      MactermColor.MactermColor discreteDistance macterm_colors (Pixel.rgb 0 0 0)
        (Pixel.rgb 0 0 0) = some res ∧
      min_element L.choices = 4 ∧ res.symbol_ = Symbol.kSpace ∧ res.fg_ = res.bg_ := by
  obtain ⟨L, res, hL, hres, h1, _, _⟩ :=
    C6_solid_strategies_share_index discreteDistance macterm_colors (Pixel.rgb 0 0 0)
      (Pixel.rgb 0 0 0)
  have hv : locals discreteDistance macterm_colors (Pixel.rgb 0 0 0) (Pixel.rgb 0 0 0) =
      some { best_fg_top := { code := 16, dist := 1 }, best_fg_bot := { code := 16, dist := 1 },
             best_bg_top := { code := 16, dist := 0 }, best_bg_bot := { code := 16, dist := 0 },
             choices := [1, 1, 2, 2, 0, 0] } := by decide!
  have hr : MactermColor.MactermColor discreteDistance macterm_colors (Pixel.rgb 0 0 0)
      (Pixel.rgb 0 0 0) = some { symbol_ := Symbol.kSpace, fg_ := 16, bg_ := 16 } := by
    have hc : MactermColor.MactermColor discreteDistance macterm_colors (Pixel.rgb 0 0 0)
        (Pixel.rgb 0 0 0) =
          (locals discreteDistance macterm_colors (Pixel.rgb 0 0 0) (Pixel.rgb 0 0 0)).bind
            (fun L => dispatch L (min_element L.choices)) := rfl
    rw [hc, hv]
    decide!
  rw [hv] at hL
  rw [hr] at hres
  cases hL
  cases hres
  have hm : min_element ([1, 1, 2, 2, 0, 0] : List ℚ) = 4 := by decide!
  exact ⟨_, _, hv, hr, hm, rfl, h1 (by rw [hm]; omega)⟩

/-- C7. The constructor cannot fail. A palette lookup succeeds exactly when its indices are
within `[2][256]`; the codes of the four matches are at most 255; the selected position is
below 6; and the constructor returns a result (no lookup is out of bounds and the `default`
branch is not taken). -/
theorem C7_constructor_total (Distance : Pixel → Pixel → ℚ) (colors : Palette)
    (top bot : Pixel) :
    (∀ r code, (colors.lookup r code).isSome ↔ (r < 2 ∧ code < 256)) ∧
    ∃ L res, locals Distance colors top bot = some L ∧
      L.best_fg_top.code ≤ 255 ∧ L.best_fg_bot.code ≤ 255 ∧
      L.best_bg_top.code ≤ 255 ∧ L.best_bg_bot.code ≤ 255 ∧
      L.choices.length = 6 ∧ min_element L.choices < 6 ∧
      MactermColor.MactermColor Distance colors top bot = some res := by
  obtain ⟨s, res, e, hs, hs6, hres, _⟩ := ctor_spec Distance colors top bot
  exact ⟨lookup_isSome_iff colors, localsValue Distance colors top bot, res,
    locals_eq Distance colors top bot, bestMatch_code_le Distance colors 0 top,
    bestMatch_code_le Distance colors 0 bot, bestMatch_code_le Distance colors 1 top,
    bestMatch_code_le Distance colors 1 bot, rfl, hs ▸ hs6, hres⟩

/-- C8. Under the distance contract `BelowBound`, for every Color `c` with top = bottom = c:
some solid strategy (2, 3, 4 or 5) has a total error at most the total error of each split
strategy (0 and 1); and whenever some solid total is strictly below both split totals, the
constructor returns a solid result (full block or blank, with fg equal to bg). -/
theorem C8_identical_colors (Distance : Pixel → Pixel → ℚ) (hD : BelowBound Distance)
    (c : Pixel) (hc : c.isColor = true) :
    ∃ L res, locals Distance macterm_colors c c = some L ∧
      MactermColor.MactermColor Distance macterm_colors c c = some res ∧
      (∃ s, 2 ≤ s ∧ s < 6 ∧ L.choices.getD s 0 ≤ L.choices.getD 0 0 ∧
          L.choices.getD s 0 ≤ L.choices.getD 1 0) ∧
      ((∃ s, 2 ≤ s ∧ s < 6 ∧ L.choices.getD s 0 < L.choices.getD 0 0 ∧
          L.choices.getD s 0 < L.choices.getD 1 0) →
        (res.symbol_ = Symbol.kFullBlock ∨ res.symbol_ = Symbol.kSpace) ∧
          res.fg_ = res.bg_) := by
  obtain ⟨L, res, hL, hres, h1, h2⟩ := identical_colors_of_hasNear Distance macterm_colors c
  exact ⟨L, res, hL, hres,
    h1 (Or.inl (hasNear_of_belowBound Distance hD 0 (by omega) c hc)), h2⟩

/-- C8, witness: the squared Euclidean metric with top = bottom = (0,0,0). -/
theorem C8_witness :
    (BelowBound squaredDistance ∧ (Pixel.rgb 0 0 0).isColor = true) ∧
    ∃ L res, locals squaredDistance macterm_colors (Pixel.rgb 0 0 0) (Pixel.rgb 0 0 0) = some L ∧
      MactermColor.MactermColor squaredDistance macterm_colors (Pixel.rgb 0 0 0)
        (Pixel.rgb 0 0 0) = some res ∧
      (∃ s, 2 ≤ s ∧ s < 6 ∧ L.choices.getD s 0 ≤ L.choices.getD 0 0 ∧
          L.choices.getD s 0 ≤ L.choices.getD 1 0) ∧
      ((∃ s, 2 ≤ s ∧ s < 6 ∧ L.choices.getD s 0 < L.choices.getD 0 0 ∧
          L.choices.getD s 0 < L.choices.getD 1 0) →
        (res.symbol_ = Symbol.kFullBlock ∨ res.symbol_ = Symbol.kSpace) ∧
          res.fg_ = res.bg_) :=
  ⟨⟨squaredDistance_belowBound, rfl⟩,
    C8_identical_colors squaredDistance squaredDistance_belowBound _ rfl⟩

/-- C9. With the compiled-in tables and a `Distance` that is 0 for identical colours and
positive otherwise, top = bottom = (0,0,0) selects strategy 4 and yields
`(blank, fg = 16, bg = 16)`: background-role entry 16 is (0,0,0) and no foreground-role
candidate is (0,0,0). -/
theorem C9_black_on_black (Distance : Pixel → Pixel → ℚ) (h0 : ∀ p, Distance p p = 0)
    (hpos : ∀ p q, p ≠ q → 0 < Distance p q) :
    macterm_colors.lookup 1 16 = some (Pixel.rgb 0 0 0) ∧
    (∀ j, 16 ≤ j → j ≤ 255 → macterm_colors.lookup 0 j ≠ some (Pixel.rgb 0 0 0)) ∧
    ∃ L, locals Distance macterm_colors (Pixel.rgb 0 0 0) (Pixel.rgb 0 0 0) = some L ∧
      min_element L.choices = 4 ∧
      MactermColor.MactermColor Distance macterm_colors (Pixel.rgb 0 0 0) (Pixel.rgb 0 0 0) =
        some { symbol_ := Symbol.kSpace, fg_ := 16, bg_ := 16 } := by
  have hnn : ∀ p q, 0 ≤ Distance p q := by
    intro p q
    by_cases h : p = q
    · rw [h, h0]
    · exact le_of_lt (hpos p q h)
  have hb16 : macterm_colors.color 1 16 = Pixel.rgb 0 0 0 := by decide!
  have hfgne : ∀ j, j < 256 → 16 ≤ j → macterm_colors.color 0 j ≠ Pixel.rgb 0 0 0 := by decide!
  have hbg : bestMatch Distance macterm_colors 1 (Pixel.rgb 0 0 0) = { code := 16, dist := 0 } :=
    bestMatch_first_zero Distance hnn macterm_colors 1 _ 16 (le_refl _) (by omega)
      (by rw [hb16]; exact h0 _) (fun j h1 h2 => by omega)
  have hfg : 0 < (bestMatch Distance macterm_colors 0 (Pixel.rgb 0 0 0)).dist := by
    rcases bestMatch_cases Distance macterm_colors 0 (Pixel.rgb 0 0 0) with ⟨e, _⟩ | ⟨h, _⟩
    · rw [e]; norm_num
    · rw [h.2.2.1]
      exact hpos _ _ (fun hc => hfgne _ (Nat.lt_succ_of_le h.2.1) h.1 hc.symm)
  obtain ⟨s, res, e, hs, hs6, hres, hd, _, he, hmin, hbefore⟩ :=
    ctor_spec Distance macterm_colors (Pixel.rgb 0 0 0) (Pixel.rgb 0 0 0)
  have g0 : (localsValue Distance macterm_colors (Pixel.rgb 0 0 0) (Pixel.rgb 0 0 0)).choices.getD 0 0
      = (bestMatch Distance macterm_colors 0 (Pixel.rgb 0 0 0)).dist + 0 := by
    simp only [localsValue, List.getD_cons_zero, hbg]
  have g1 : (localsValue Distance macterm_colors (Pixel.rgb 0 0 0) (Pixel.rgb 0 0 0)).choices.getD 1 0
      = 0 + (bestMatch Distance macterm_colors 0 (Pixel.rgb 0 0 0)).dist := by
    simp only [localsValue, List.getD_cons_zero, List.getD_cons_succ, hbg]
  have g2 : (localsValue Distance macterm_colors (Pixel.rgb 0 0 0) (Pixel.rgb 0 0 0)).choices.getD 2 0
      = (bestMatch Distance macterm_colors 0 (Pixel.rgb 0 0 0)).dist +
        Distance (Pixel.rgb 0 0 0) (macterm_colors.color 0
          (bestMatch Distance macterm_colors 0 (Pixel.rgb 0 0 0)).code) := rfl
  have g3 : (localsValue Distance macterm_colors (Pixel.rgb 0 0 0) (Pixel.rgb 0 0 0)).choices.getD 3 0
      = (bestMatch Distance macterm_colors 0 (Pixel.rgb 0 0 0)).dist +
        Distance (Pixel.rgb 0 0 0) (macterm_colors.color 0
          (bestMatch Distance macterm_colors 0 (Pixel.rgb 0 0 0)).code) := rfl
  have g4 : (localsValue Distance macterm_colors (Pixel.rgb 0 0 0) (Pixel.rgb 0 0 0)).choices.getD 4 0
      = 0 := by
    simp only [localsValue, List.getD_cons_zero, List.getD_cons_succ, hbg, hb16, h0, add_zero]
  have g5 : (localsValue Distance macterm_colors (Pixel.rgb 0 0 0) (Pixel.rgb 0 0 0)).choices.getD 5 0
      = 0 := by
    simp only [localsValue, List.getD_cons_zero, List.getD_cons_succ, hbg, hb16, h0, add_zero]
  have hx := hnn (Pixel.rgb 0 0 0) (macterm_colors.color 0
    (bestMatch Distance macterm_colors 0 (Pixel.rgb 0 0 0)).code)
  have h4 := hmin 4 (by omega)
  rw [g4] at h4
  have hs4 : s = 4 := by
    interval_cases s
    · rw [g0] at he; linarith
    · rw [g1] at he; linarith
    · rw [g2] at he; linarith
    · rw [g3] at he; linarith
    · rfl
    · have := hbefore 4 (by omega)
      rw [g4, he, g5] at this
      exact absurd this (lt_irrefl _)
  rw [hs4] at hs hd
  have hr : res = { symbol_ := Symbol.kSpace, fg_ := 16, bg_ := 16 } := by
    have hd2 : dispatch (localsValue Distance macterm_colors (Pixel.rgb 0 0 0) (Pixel.rgb 0 0 0)) 4
        = some { symbol_ := Symbol.kSpace,
                 fg_ := (bestMatch Distance macterm_colors 1 (Pixel.rgb 0 0 0)).code,
                 bg_ := (bestMatch Distance macterm_colors 1 (Pixel.rgb 0 0 0)).code } := rfl
    rw [hd2, hbg] at hd
    exact (Option.some.inj hd).symm
  refine ⟨by decide!, ?_, localsValue Distance macterm_colors _ _, locals_eq _ _ _ _, hs.symm,
    hr ▸ hres⟩
  intro j h1 h2 hc
  have hcol : macterm_colors.color 0 j = Pixel.rgb 0 0 0 := by
    unfold Palette.color; rw [hc]; rfl
  exact hfgne j (by omega) h1 hcol

/-- C9, witness: the discrete metric is 0 for identical colours and positive otherwise. -/
theorem C9_witness :
    (∀ p, discreteDistance p p = 0) ∧ (∀ p q, p ≠ q → 0 < discreteDistance p q) ∧
    MactermColor.MactermColor discreteDistance macterm_colors (Pixel.rgb 0 0 0)
        (Pixel.rgb 0 0 0) = some { symbol_ := Symbol.kSpace, fg_ := 16, bg_ := 16 } :=
  have h0 : ∀ p, discreteDistance p p = 0 := fun p => by simp [discreteDistance]
  have hpos : ∀ p q, p ≠ q → 0 < discreteDistance p q := fun p q h => by
    simp [discreteDistance, h]
  ⟨h0, hpos, (C9_black_on_black discreteDistance h0 hpos).2.2.elim fun _ h => h.2.2⟩

/-- C10. Over any palette and any non-negative `Distance`: if foreground-role entry 196 is at
distance 0 from top, background-role entry 21 is at distance 0 from bottom, and no lower
candidate of the respective table is at distance 0, the constructor selects strategy 0 and
returns `(upper-half-block, fg = 196, bg = 21)`. -/
theorem C10_scenario_A (Distance : Pixel → Pixel → ℚ) (colors : Palette) (top bot : Pixel)
    (hnn : ∀ p q, 0 ≤ Distance p q)
    (hfg : Distance top (colors.color 0 196) = 0)
    (hbg : Distance bot (colors.color 1 21) = 0)
    (hfgFirst : ∀ j, 16 ≤ j → j < 196 → Distance top (colors.color 0 j) ≠ 0)
    (hbgFirst : ∀ j, 16 ≤ j → j < 21 → Distance bot (colors.color 1 j) ≠ 0) :
    ∃ L, locals Distance colors top bot = some L ∧ min_element L.choices = 0 ∧
      MactermColor.MactermColor Distance colors top bot =
        some { symbol_ := Symbol.kUpperHalfBlock, fg_ := 196, bg_ := 21 } := by
  have hft : bestMatch Distance colors 0 top = { code := 196, dist := 0 } :=
    bestMatch_first_zero Distance hnn colors 0 top 196 (by omega) (by omega) hfg hfgFirst
  have hbb : bestMatch Distance colors 1 bot = { code := 21, dist := 0 } :=
    bestMatch_first_zero Distance hnn colors 1 bot 21 (by omega) (by omega) hbg hbgFirst
  obtain ⟨s, res, e, hs, hs6, hres, hd, _, he, hmin, hbefore⟩ :=
    ctor_spec Distance colors top bot
  have g0 : (localsValue Distance colors top bot).choices.getD 0 0 = 0 := by
    simp only [localsValue, List.getD_cons_zero, hft, hbb, add_zero]
  have hge : ∀ j, j < 6 → 0 ≤ (localsValue Distance colors top bot).choices.getD j 0 := by
    intro j hj
    have n1 := bestMatch_dist_nonneg Distance hnn colors 0 top
    have n2 := bestMatch_dist_nonneg Distance hnn colors 0 bot
    have n3 := bestMatch_dist_nonneg Distance hnn colors 1 top
    have n4 := bestMatch_dist_nonneg Distance hnn colors 1 bot
    interval_cases j <;>
      simp only [localsValue, List.getD_cons_zero, List.getD_cons_succ] <;>
      first
        | exact add_nonneg n1 n4
        | exact add_nonneg n3 n2
        | exact add_nonneg n1 (hnn _ _)
        | exact add_nonneg n2 (hnn _ _)
        | exact add_nonneg n3 (hnn _ _)
        | exact add_nonneg n4 (hnn _ _)
  have hs0 : s = 0 := by
    by_contra hne
    have h1 := hbefore 0 (by omega)
    have h2 := hge s hs6
    rw [g0] at h1
    rw [← he] at h2
    exact absurd (lt_of_le_of_lt h2 h1) (lt_irrefl _)
  rw [hs0] at hs hd
  have hr : res = { symbol_ := Symbol.kUpperHalfBlock, fg_ := 196, bg_ := 21 } := by
    have hd2 : dispatch (localsValue Distance colors top bot) 0
        = some { symbol_ := Symbol.kUpperHalfBlock,
                 fg_ := (bestMatch Distance colors 0 top).code,
                 bg_ := (bestMatch Distance colors 1 bot).code } := rfl
    rw [hd2, hft, hbb] at hd
    exact (Option.some.inj hd).symm
  exact ⟨localsValue Distance colors top bot, locals_eq _ _ _ _, hs.symm, hr ▸ hres⟩

/-- C10, witness: top = (255,0,0) and bottom = (0,0,255) over `scenarioPalette` with the
discrete metric. -/
theorem C10_witness :
    ((∀ p q, 0 ≤ discreteDistance p q) ∧
      discreteDistance (Pixel.rgb 255 0 0) (scenarioPalette.color 0 196) = 0 ∧
      discreteDistance (Pixel.rgb 0 0 255) (scenarioPalette.color 1 21) = 0 ∧
      (∀ j, 16 ≤ j → j < 196 →
        discreteDistance (Pixel.rgb 255 0 0) (scenarioPalette.color 0 j) ≠ 0) ∧
      (∀ j, 16 ≤ j → j < 21 →
        discreteDistance (Pixel.rgb 0 0 255) (scenarioPalette.color 1 j) ≠ 0)) ∧
    ∃ L, locals discreteDistance scenarioPalette (Pixel.rgb 255 0 0) (Pixel.rgb 0 0 255) = some L ∧
      min_element L.choices = 0 ∧
      MactermColor.MactermColor discreteDistance scenarioPalette (Pixel.rgb 255 0 0)
          (Pixel.rgb 0 0 255) =
        some { symbol_ := Symbol.kUpperHalfBlock, fg_ := 196, bg_ := 21 } :=
  have hnn : ∀ p q, 0 ≤ discreteDistance p q := fun p q => by
    unfold discreteDistance; split <;> norm_num
  have h1 : discreteDistance (Pixel.rgb 255 0 0) (scenarioPalette.color 0 196) = 0 := by decide!
  have h2 : discreteDistance (Pixel.rgb 0 0 255) (scenarioPalette.color 1 21) = 0 := by decide!
  have h3 : ∀ j, 16 ≤ j → j < 196 →
      discreteDistance (Pixel.rgb 255 0 0) (scenarioPalette.color 0 j) ≠ 0 :=
    fun j a b => (by decide! : ∀ j, j < 196 → 16 ≤ j →
      discreteDistance (Pixel.rgb 255 0 0) (scenarioPalette.color 0 j) ≠ 0) j b a
  have h4 : ∀ j, 16 ≤ j → j < 21 →
      discreteDistance (Pixel.rgb 0 0 255) (scenarioPalette.color 1 j) ≠ 0 :=
    fun j a b => (by decide! : ∀ j, j < 21 → 16 ≤ j →
      discreteDistance (Pixel.rgb 0 0 255) (scenarioPalette.color 1 j) ≠ 0) j b a
  ⟨⟨hnn, h1, h2, h3, h4⟩,
    C10_scenario_A discreteDistance scenarioPalette _ _ hnn h1 h2 h3 h4⟩

/-- C11, evaluation of the tables. Entry 163 is the same triple (241, 69, 202) in the
foreground-role and in the background-role table, so the claim fails at `i = 163`; at every
other candidate index in 16..255 the two roles differ. -/
theorem C11_entry_163_same_in_both_roles :
    macterm_colors.lookup 0 163 = some (Pixel.rgb 241 69 202) ∧
    macterm_colors.lookup 1 163 = some (Pixel.rgb 241 69 202) ∧
    macterm_colors.lookup 1 162 = some (Pixel.rgb 213 20 135) ∧
    macterm_colors.lookup 1 164 = some (Pixel.rgb 213 32 212) ∧
    (∀ i, i < 256 → 16 ≤ i → i ≠ 163 →
      macterm_colors.lookup 0 i ≠ macterm_colors.lookup 1 i) := by
  decide!

/-- C12. Each of the two initialiser lists of `macterm_colors` has exactly 256 entries, entry 0
of each table is `Pixel::kClear`, and every entry at an index in 1..255 of either table is an
RGB triple whose three channels are in 0..255. -/
theorem C12_tables_well_formed :
    macterm_colors_fg.length = 256 ∧ macterm_colors_bg.length = 256 ∧
    macterm_colors.row0 = macterm_colors_fg ∧ macterm_colors.row1 = macterm_colors_bg ∧
    macterm_colors.lookup 0 0 = some Pixel.kClear ∧
    macterm_colors.lookup 1 0 = some Pixel.kClear ∧
    (∀ r i, r < 2 → 1 ≤ i → i ≤ 255 →
      ∃ red green blue, macterm_colors.lookup r i = some (Pixel.rgb red green blue) ∧
        red ≤ 255 ∧ green ≤ 255 ∧ blue ≤ 255) := by
  have key : ∀ r, r < 2 → ∀ i, i < 256 → 1 ≤ i →
      (macterm_colors.lookup r i).map Pixel.isRGB8 = some true := by decide!
  refine ⟨by decide!, by decide!, rfl, rfl, by decide!, by decide!, ?_⟩
  intro r i hr h1 h2
  have h := key r hr i (Nat.lt_succ_of_le h2) h1
  rcases hl : macterm_colors.lookup r i with _ | p
  · rw [hl] at h; exact absurd h (by simp)
  · rw [hl] at h
    cases p with
    | kClear => exact absurd h (by simp [Pixel.isRGB8])
    | rgb red green blue =>
      simp only [Option.map_some', Pixel.isRGB8, Option.some.injEq, Bool.and_eq_true,
        decide_eq_true_eq] at h
      exact ⟨red, green, blue, rfl, h.1.1, h.1.2, h.2⟩

/-- C13, counterexample. With the metric `boundDistance` every candidate of the foreground
table is at distance exactly 1000000 from the sentinel colour: the scan leaves the initial
`{0, 1e6}`, and the recorded distance 1000000 is the distance to palette entry 16. -/
theorem C13_counterexample :
    (∀ j, j < 256 → 16 ≤ j →
      (1000000 : ℚ) ≤ boundDistance Pixel.kClear (macterm_colors.color 0 j)) ∧
    scan boundDistance macterm_colors 0 Pixel.kClear Pixel.kClear =
      some ({ code := 0, dist := 1000000 }, { code := 0, dist := 1000000 }) ∧
    boundDistance Pixel.kClear (macterm_colors.color 0 16) = 1000000 := by
  decide!

/-- C13, as amended. For each input colour and each table, the match the scan leaves has a
code in 16..255 if and only if some candidate in 16..255 is at distance below `1e6`; if every
candidate distance is at least `1e6` the match is the initial `{0, 1e6}`, whose distance is at
most every candidate's and is no candidate's distance when all candidates are strictly above
`1e6`. When this is the case of all four scans, both returned indices are 0. -/
theorem C13_scan_outcome (Distance : Pixel → Pixel → ℚ) (colors : Palette) (top bot : Pixel) :
    ∃ L res, locals Distance colors top bot = some L ∧
      MactermColor.MactermColor Distance colors top bot = some res ∧
      ScanOutcome Distance colors 0 top L.best_fg_top ∧
      ScanOutcome Distance colors 0 bot L.best_fg_bot ∧
      ScanOutcome Distance colors 1 top L.best_bg_top ∧
      ScanOutcome Distance colors 1 bot L.best_bg_bot ∧
      (¬ HasNear Distance colors 0 top → ¬ HasNear Distance colors 0 bot →
        ¬ HasNear Distance colors 1 top → ¬ HasNear Distance colors 1 bot →
        res.fg_ = 0 ∧ res.bg_ = 0) := by
  obtain ⟨s, res, e, _, _, hres, hd, _⟩ := ctor_spec Distance colors top bot
  refine ⟨localsValue Distance colors top bot, res, locals_eq Distance colors top bot, hres,
    bestMatch_scanOutcome Distance colors 0 top, bestMatch_scanOutcome Distance colors 0 bot,
    bestMatch_scanOutcome Distance colors 1 top, bestMatch_scanOutcome Distance colors 1 bot, ?_⟩
  intro n1 n2 n3 n4
  have z1 := bestMatch_code_zero Distance colors 0 top n1
  have z2 := bestMatch_code_zero Distance colors 0 bot n2
  have z3 := bestMatch_code_zero Distance colors 1 top n3
  have z4 := bestMatch_code_zero Distance colors 1 bot n4
  obtain ⟨hf, hb⟩ := dispatch_codes _ s res hd
  have e1 : (localsValue Distance colors top bot).best_fg_top = bestMatch Distance colors 0 top := rfl
  have e2 : (localsValue Distance colors top bot).best_fg_bot = bestMatch Distance colors 0 bot := rfl
  have e3 : (localsValue Distance colors top bot).best_bg_top = bestMatch Distance colors 1 top := rfl
  have e4 : (localsValue Distance colors top bot).best_bg_bot = bestMatch Distance colors 1 bot := rfl
  rw [e1, e2, e3, e4, z1, z2, z3, z4] at hf hb
  exact ⟨by rcases hf with h | h | h | h <;> exact h, by rcases hb with h | h | h | h <;> exact h⟩

/-- C13, witness: with `farDistance` and top = bottom = (1,2,3) every candidate of either
table is at distance 2000000; the four matches are `{0, 1e6}` and both returned indices
are 0. -/
theorem C13_witness :
    ∃ L res, locals farDistance macterm_colors (Pixel.rgb 1 2 3) (Pixel.rgb 1 2 3) = some L ∧
      MactermColor.MactermColor farDistance macterm_colors (Pixel.rgb 1 2 3) (Pixel.rgb 1 2 3) =
        some res ∧
      L.best_fg_top = { code := 0, dist := 1000000 } ∧
      L.best_bg_top = { code := 0, dist := 1000000 } ∧
      (∀ j, 16 ≤ j → j ≤ 255 →
        L.best_fg_top.dist ≠ farDistance (Pixel.rgb 1 2 3) (macterm_colors.color 0 j)) ∧
      res.fg_ = 0 ∧ res.bg_ = 0 := by
  have a0 : ∀ j, 16 ≤ j → j ≤ 255 →
      (1000000 : ℚ) < farDistance (Pixel.rgb 1 2 3) (macterm_colors.color 0 j) :=
    fun j h1 h2 => (by decide! : ∀ j, j < 256 → 16 ≤ j →
      (1000000 : ℚ) < farDistance (Pixel.rgb 1 2 3) (macterm_colors.color 0 j)) j
        (Nat.lt_succ_of_le h2) h1
  have a1 : ∀ j, 16 ≤ j → j ≤ 255 →
      (1000000 : ℚ) < farDistance (Pixel.rgb 1 2 3) (macterm_colors.color 1 j) :=
    fun j h1 h2 => (by decide! : ∀ j, j < 256 → 16 ≤ j →
      (1000000 : ℚ) < farDistance (Pixel.rgb 1 2 3) (macterm_colors.color 1 j)) j
        (Nat.lt_succ_of_le h2) h1
  have n0 : ¬ HasNear farDistance macterm_colors 0 (Pixel.rgb 1 2 3) := by
    rintro ⟨j, h1, h2, h3⟩
    exact absurd h3 (not_lt.2 (le_of_lt (a0 j h1 h2)))
  have n1 : ¬ HasNear farDistance macterm_colors 1 (Pixel.rgb 1 2 3) := by
    rintro ⟨j, h1, h2, h3⟩
    exact absurd h3 (not_lt.2 (le_of_lt (a1 j h1 h2)))
  obtain ⟨L, res, hL, hres, o1, _, o3, _, hz⟩ :=
    C13_scan_outcome farDistance macterm_colors (Pixel.rgb 1 2 3) (Pixel.rgb 1 2 3)
  have f := o1.2 (fun j h1 h2 => le_of_lt (a0 j h1 h2))
  have b := o3.2 (fun j h1 h2 => le_of_lt (a1 j h1 h2))
  exact ⟨L, res, hL, hres, f.1, b.1, f.2.2 a0, hz n0 n0 n1 n1⟩

/-- C14, counterexample. With the six totals added as doubles and the normalised squared
Euclidean metric computed in doubles, top = bottom = (21,57,81) has the foreground-role best
match 232 at `df = 0x1.bbb5afa9a39d8p-6` and the background-role best match 23 at
`db = 0x1.bbb5afa9a39d9p-6`, so `df < db`; the double sum `df + db` rounds to `2 * df`, the
totals of strategies 0 and 2 are equal, and the constructor returns the upper-half-block with
fg = 232 and bg = 23, not the full block. -/
theorem C14_counterexample :
    ∃ L, localsWith double_add normalisedDistance macterm_colors (Pixel.rgb 21 57 81)
        (Pixel.rgb 21 57 81) = some L ∧
      L.best_fg_top = { code := 232, dist := 975727974631227 / 36028797018963968 } ∧
      L.best_bg_top = { code := 23, dist := 7805823797049817 / 288230376151711744 } ∧
      L.best_fg_top.dist < L.best_bg_top.dist ∧
      L.choices =
        [975727974631227 / 18014398509481984, 975727974631227 / 18014398509481984,
         975727974631227 / 18014398509481984, 975727974631227 / 18014398509481984,
         7805823797049817 / 144115188075855872, 7805823797049817 / 144115188075855872] ∧
      MactermColor.withAdd double_add normalisedDistance macterm_colors (Pixel.rgb 21 57 81)
          (Pixel.rgb 21 57 81) =
        some { symbol_ := Symbol.kUpperHalfBlock, fg_ := 232, bg_ := 23 } := by
  have hfg := tie_bestMatch_fg
  have hbg := tie_bestMatch_bg
  have h1 : (localsValueWith double_add normalisedDistance macterm_colors (Pixel.rgb 21 57 81)
      (Pixel.rgb 21 57 81)).best_fg_top =
        { code := 232, dist := 975727974631227 / 36028797018963968 } := hfg
  have h2 : (localsValueWith double_add normalisedDistance macterm_colors (Pixel.rgb 21 57 81)
      (Pixel.rgb 21 57 81)).best_bg_top =
        { code := 23, dist := 7805823797049817 / 288230376151711744 } := hbg
  have h2b : (localsValueWith double_add normalisedDistance macterm_colors (Pixel.rgb 21 57 81)
      (Pixel.rgb 21 57 81)).best_bg_bot =
        { code := 23, dist := 7805823797049817 / 288230376151711744 } := hbg
  have hch : (localsValueWith double_add normalisedDistance macterm_colors (Pixel.rgb 21 57 81)
      (Pixel.rgb 21 57 81)).choices =
        [975727974631227 / 18014398509481984, 975727974631227 / 18014398509481984,
         975727974631227 / 18014398509481984, 975727974631227 / 18014398509481984,
         7805823797049817 / 144115188075855872, 7805823797049817 / 144115188075855872] := by
    simp only [localsValueWith, hfg, hbg]
    decide!
  have hd : dispatch (localsValueWith double_add normalisedDistance macterm_colors
      (Pixel.rgb 21 57 81) (Pixel.rgb 21 57 81)) 0 =
        some { symbol_ := Symbol.kUpperHalfBlock,
               fg_ := (localsValueWith double_add normalisedDistance macterm_colors
                 (Pixel.rgb 21 57 81) (Pixel.rgb 21 57 81)).best_fg_top.code,
               bg_ := (localsValueWith double_add normalisedDistance macterm_colors
                 (Pixel.rgb 21 57 81) (Pixel.rgb 21 57 81)).best_bg_bot.code } := rfl
  refine ⟨_, localsWith_eq _ _ _ _ _, h1, h2, ?_, hch, ?_⟩
  · rw [h1, h2]; decide!
  · rw [withAdd_eq, hch]
    have hm : min_element
        ([975727974631227 / 18014398509481984, 975727974631227 / 18014398509481984,
          975727974631227 / 18014398509481984, 975727974631227 / 18014398509481984,
          7805823797049817 / 144115188075855872, 7805823797049817 / 144115188075855872] :
          List ℚ) = 0 := by decide!
    rw [hm, hd, h1, h2b]

/-- C14, as amended. For top = bottom = c with some candidate of each table at distance below
`1e6`, writing df and db for the distances of the foreground-role and background-role best
matches and `add` for the (commutative) sum of the `choices` array: the six totals are
`add df db` twice, `add df df` twice and `add db db` twice; the result is the full block at
the foreground match if `add df df` is strictly below `add df db` and at most `add db db`, the
blank at the background match if `add db db` is strictly below both others, and the
upper-half-block with fg the foreground match and bg the background match if `add df db` is
at most both others. The glyph is never the lower-half-block. When the sums are exact these
three cases are df < db, db < df and df = db. -/
theorem C14_identical_colors_result (add : ℚ → ℚ → ℚ) (hcomm : ∀ a b, add a b = add b a)
    (Distance : Pixel → Pixel → ℚ) (colors : Palette) (c : Pixel)
    (hf : HasNear Distance colors 0 c) (hb : HasNear Distance colors 1 c) :
    ∃ L res, localsWith add Distance colors c c = some L ∧
      MactermColor.withAdd add Distance colors c c = some res ∧
      L.best_fg_bot = L.best_fg_top ∧ L.best_bg_bot = L.best_bg_top ∧
      L.choices =
        [add L.best_fg_top.dist L.best_bg_top.dist, add L.best_fg_top.dist L.best_bg_top.dist,
         add L.best_fg_top.dist L.best_fg_top.dist, add L.best_fg_top.dist L.best_fg_top.dist,
         add L.best_bg_top.dist L.best_bg_top.dist, add L.best_bg_top.dist L.best_bg_top.dist] ∧
      (add L.best_fg_top.dist L.best_fg_top.dist < add L.best_fg_top.dist L.best_bg_top.dist →
        add L.best_fg_top.dist L.best_fg_top.dist ≤ add L.best_bg_top.dist L.best_bg_top.dist →
        res = { symbol_ := Symbol.kFullBlock, fg_ := L.best_fg_top.code,
                bg_ := L.best_fg_top.code }) ∧
      (add L.best_bg_top.dist L.best_bg_top.dist < add L.best_fg_top.dist L.best_bg_top.dist →
        add L.best_bg_top.dist L.best_bg_top.dist < add L.best_fg_top.dist L.best_fg_top.dist →
        res = { symbol_ := Symbol.kSpace, fg_ := L.best_bg_top.code,
                bg_ := L.best_bg_top.code }) ∧
      (add L.best_fg_top.dist L.best_bg_top.dist ≤ add L.best_fg_top.dist L.best_fg_top.dist →
        add L.best_fg_top.dist L.best_bg_top.dist ≤ add L.best_bg_top.dist L.best_bg_top.dist →
        res = { symbol_ := Symbol.kUpperHalfBlock, fg_ := L.best_fg_top.code,
                bg_ := L.best_bg_top.code }) ∧
      res.symbol_ ≠ Symbol.kLowerHalfBlock ∧
      ((∀ a b, add a b = a + b) →
        MactermColor.MactermColor Distance colors c c = some res ∧
        (L.best_fg_top.dist < L.best_bg_top.dist →
          res = { symbol_ := Symbol.kFullBlock, fg_ := L.best_fg_top.code,
                  bg_ := L.best_fg_top.code }) ∧
        (L.best_bg_top.dist < L.best_fg_top.dist →
          res = { symbol_ := Symbol.kSpace, fg_ := L.best_bg_top.code,
                  bg_ := L.best_bg_top.code }) ∧
        (L.best_fg_top.dist = L.best_bg_top.dist →
          res = { symbol_ := Symbol.kUpperHalfBlock, fg_ := L.best_fg_top.code,
                  bg_ := L.best_bg_top.code })) := by
  have e1 := (bestMatch_isFirstBest Distance colors 0 c hf).2.2.1
  have e3 := (bestMatch_isFirstBest Distance colors 1 c hb).2.2.1
  have hch : (localsValueWith add Distance colors c c).choices =
      [add (bestMatch Distance colors 0 c).dist (bestMatch Distance colors 1 c).dist,
       add (bestMatch Distance colors 0 c).dist (bestMatch Distance colors 1 c).dist,
       add (bestMatch Distance colors 0 c).dist (bestMatch Distance colors 0 c).dist,
       add (bestMatch Distance colors 0 c).dist (bestMatch Distance colors 0 c).dist,
       add (bestMatch Distance colors 1 c).dist (bestMatch Distance colors 1 c).dist,
       add (bestMatch Distance colors 1 c).dist (bestMatch Distance colors 1 c).dist] := by
    simp only [localsValueWith]
    rw [← e1, ← e3, hcomm (bestMatch Distance colors 1 c).dist]
  obtain ⟨s, res, hs, hs6, hd, hmin, hbefore⟩ :=
    select_spec (localsValueWith add Distance colors c c) rfl
  have hres : MactermColor.withAdd add Distance colors c c = some res := by
    rw [withAdd_eq, ← hs]; exact hd
  clear hs
  rw [hch] at hmin hbefore
  have d0 : dispatch (localsValueWith add Distance colors c c) 0 =
      some { symbol_ := Symbol.kUpperHalfBlock, fg_ := (bestMatch Distance colors 0 c).code,
             bg_ := (bestMatch Distance colors 1 c).code } := rfl
  have d2 : dispatch (localsValueWith add Distance colors c c) 2 =
      some { symbol_ := Symbol.kFullBlock, fg_ := (bestMatch Distance colors 0 c).code,
             bg_ := (bestMatch Distance colors 0 c).code } := rfl
  have d4 : dispatch (localsValueWith add Distance colors c c) 4 =
      some { symbol_ := Symbol.kSpace, fg_ := (bestMatch Distance colors 1 c).code,
             bg_ := (bestMatch Distance colors 1 c).code } := rfl
  have hs024 : s = 0 ∨ s = 2 ∨ s = 4 := by
    interval_cases s
    · exact Or.inl rfl
    · exact absurd (hbefore 0 (by omega)) (by simp)
    · exact Or.inr (Or.inl rfl)
    · exact absurd (hbefore 2 (by omega)) (by simp)
    · exact Or.inr (Or.inr rfl)
    · exact absurd (hbefore 4 (by omega)) (by simp)
  have cF : add (bestMatch Distance colors 0 c).dist (bestMatch Distance colors 0 c).dist <
        add (bestMatch Distance colors 0 c).dist (bestMatch Distance colors 1 c).dist →
      add (bestMatch Distance colors 0 c).dist (bestMatch Distance colors 0 c).dist ≤
        add (bestMatch Distance colors 1 c).dist (bestMatch Distance colors 1 c).dist →
      res = { symbol_ := Symbol.kFullBlock, fg_ := (bestMatch Distance colors 0 c).code,
              bg_ := (bestMatch Distance colors 0 c).code } := by
    intro a1 a2
    rcases hs024 with h | h | h <;> subst h
    · have := hmin 2 (by omega)
      simp only [List.getD_cons_zero, List.getD_cons_succ] at this
      exact absurd (lt_of_lt_of_le a1 this) (lt_irrefl _)
    · rw [d2] at hd; exact (Option.some.inj hd).symm
    · have := hbefore 2 (by omega)
      simp only [List.getD_cons_zero, List.getD_cons_succ] at this
      exact absurd (lt_of_lt_of_le this a2) (lt_irrefl _)
  have cB : add (bestMatch Distance colors 1 c).dist (bestMatch Distance colors 1 c).dist <
        add (bestMatch Distance colors 0 c).dist (bestMatch Distance colors 1 c).dist →
      add (bestMatch Distance colors 1 c).dist (bestMatch Distance colors 1 c).dist <
        add (bestMatch Distance colors 0 c).dist (bestMatch Distance colors 0 c).dist →
      res = { symbol_ := Symbol.kSpace, fg_ := (bestMatch Distance colors 1 c).code,
              bg_ := (bestMatch Distance colors 1 c).code } := by
    intro a1 a2
    rcases hs024 with h | h | h <;> subst h
    · have := hmin 4 (by omega)
      simp only [List.getD_cons_zero, List.getD_cons_succ] at this
      exact absurd (lt_of_lt_of_le a1 this) (lt_irrefl _)
    · have := hmin 4 (by omega)
      simp only [List.getD_cons_zero, List.getD_cons_succ] at this
      exact absurd (lt_of_lt_of_le a2 this) (lt_irrefl _)
    · rw [d4] at hd; exact (Option.some.inj hd).symm
  have cU : add (bestMatch Distance colors 0 c).dist (bestMatch Distance colors 1 c).dist ≤
        add (bestMatch Distance colors 0 c).dist (bestMatch Distance colors 0 c).dist →
      add (bestMatch Distance colors 0 c).dist (bestMatch Distance colors 1 c).dist ≤
        add (bestMatch Distance colors 1 c).dist (bestMatch Distance colors 1 c).dist →
      res = { symbol_ := Symbol.kUpperHalfBlock, fg_ := (bestMatch Distance colors 0 c).code,
              bg_ := (bestMatch Distance colors 1 c).code } := by
    intro a1 a2
    rcases hs024 with h | h | h <;> subst h
    · rw [d0] at hd; exact (Option.some.inj hd).symm
    · have := hbefore 0 (by omega)
      simp only [List.getD_cons_zero, List.getD_cons_succ] at this
      exact absurd (lt_of_lt_of_le this a1) (lt_irrefl _)
    · have := hbefore 0 (by omega)
      simp only [List.getD_cons_zero, List.getD_cons_succ] at this
      exact absurd (lt_of_lt_of_le this a2) (lt_irrefl _)
  refine ⟨localsValueWith add Distance colors c c, res, localsWith_eq _ _ _ _ _, hres, rfl, rfl,
    hch, cF, cB, cU, ?_, ?_⟩
  · intro hsym
    rcases hs024 with h | h | h <;> rw [h] at hd
    · rw [d0] at hd; rw [← Option.some.inj hd] at hsym; exact Symbol.noConfusion hsym
    · rw [d2] at hd; rw [← Option.some.inj hd] at hsym; exact Symbol.noConfusion hsym
    · rw [d4] at hd; rw [← Option.some.inj hd] at hsym; exact Symbol.noConfusion hsym
  · intro hex
    have hfun : add = fun a b => a + b := funext fun a => funext fun b => hex a b
    refine ⟨?_, ?_, ?_, ?_⟩
    · rw [← hres, hfun]; rfl
    · intro hlt
      have hlt2 : (bestMatch Distance colors 0 c).dist < (bestMatch Distance colors 1 c).dist := hlt
      apply cF <;> rw [hex, hex] <;> linarith
    · intro hlt
      have hlt2 : (bestMatch Distance colors 1 c).dist < (bestMatch Distance colors 0 c).dist := hlt
      apply cB <;> rw [hex, hex] <;> linarith
    · intro heq
      have heq2 : (bestMatch Distance colors 0 c).dist = (bestMatch Distance colors 1 c).dist := heq
      apply cU <;> rw [hex, hex] <;> linarith

/-- C14, witness: the double sum is commutative, and for top = bottom = (21,57,81) with the
normalised metric in doubles candidate 232 of the foreground table and candidate 23 of the
background table are below `1e6`. -/
theorem C14_witness :
    ((∀ a b, double_add a b = double_add b a) ∧
      HasNear normalisedDistance macterm_colors 0 (Pixel.rgb 21 57 81) ∧
      HasNear normalisedDistance macterm_colors 1 (Pixel.rgb 21 57 81)) ∧
    ∃ L res, localsWith double_add normalisedDistance macterm_colors (Pixel.rgb 21 57 81)
        (Pixel.rgb 21 57 81) = some L ∧
      MactermColor.withAdd double_add normalisedDistance macterm_colors (Pixel.rgb 21 57 81)
        (Pixel.rgb 21 57 81) = some res ∧
      (double_add L.best_fg_top.dist L.best_bg_top.dist ≤
          double_add L.best_fg_top.dist L.best_fg_top.dist →
        double_add L.best_fg_top.dist L.best_bg_top.dist ≤
          double_add L.best_bg_top.dist L.best_bg_top.dist →
        res = { symbol_ := Symbol.kUpperHalfBlock, fg_ := L.best_fg_top.code,
                bg_ := L.best_bg_top.code }) ∧
      res.symbol_ ≠ Symbol.kLowerHalfBlock := by
  have h1 : HasNear normalisedDistance macterm_colors 0 (Pixel.rgb 21 57 81) :=
    ⟨232, by decide, by decide, by decide!⟩
  have h2 : HasNear normalisedDistance macterm_colors 1 (Pixel.rgb 21 57 81) :=
    ⟨23, by decide, by decide, by decide!⟩
  obtain ⟨L, res, hL, hres, _, _, _, _, _, hU, hne, _⟩ :=
    C14_identical_colors_result double_add double_add_comm normalisedDistance macterm_colors
      (Pixel.rgb 21 57 81) h1 h2
  exact ⟨⟨double_add_comm, h1, h2⟩, L, res, hL, hres, hU, hne⟩

/-- C16. Exchanging top and bottom exchanges the six totals in pairs (0 with 1, 2 with 3,
4 with 5), so the least total is the same; and when the winning strategy for (top, bottom) is
strictly below every other strategy, (bottom, top) selects the exchanged strategy and returns
the same fg and bg indices with the mirrored glyph. -/
theorem C16_swap_mirrors_result (Distance : Pixel → Pixel → ℚ) (colors : Palette)
    (top bot : Pixel) :
    ∃ L L' res res', locals Distance colors top bot = some L ∧
      locals Distance colors bot top = some L' ∧
      MactermColor.MactermColor Distance colors top bot = some res ∧
      MactermColor.MactermColor Distance colors bot top = some res' ∧
      (∀ j, j < 6 → L'.choices.getD j 0 = L.choices.getD (swapStrategy j) 0) ∧
      L'.choices.getD (min_element L'.choices) 0 = L.choices.getD (min_element L.choices) 0 ∧
      ((∀ j, j < 6 → j ≠ min_element L.choices →
          L.choices.getD (min_element L.choices) 0 < L.choices.getD j 0) →
        min_element L'.choices = swapStrategy (min_element L.choices) ∧
          res'.fg_ = res.fg_ ∧ res'.bg_ = res.bg_ ∧ res'.symbol_ = mirror res.symbol_) := by
  obtain ⟨s, res, e, hs, hs6, hres, hd, _, he, hmin, _⟩ := ctor_spec Distance colors top bot
  obtain ⟨s', res', e', hs', hs6', hres', hd', _, he', hmin', _⟩ :=
    ctor_spec Distance colors bot top
  have hee : e' = e := by
    apply le_antisymm
    · have := hmin' (swapStrategy s) (swapStrategy_lt hs6)
      rw [choices_swap Distance colors top bot (swapStrategy_lt hs6),
        swapStrategy_swapStrategy hs6, ← he] at this
      exact this
    · have := hmin (swapStrategy s') (swapStrategy_lt hs6')
      rw [← choices_swap Distance colors top bot hs6', ← he'] at this
      exact this
  refine ⟨localsValue Distance colors top bot, localsValue Distance colors bot top, res, res',
    locals_eq Distance colors top bot, locals_eq Distance colors bot top, hres, hres',
    fun j hj => choices_swap Distance colors top bot hj, ?_, ?_⟩
  · rw [← hs, ← hs', ← he, ← he']; exact hee
  · rw [← hs, ← hs']
    intro hstrict
    have hsw : s' = swapStrategy s := by
      by_contra hne
      have hne2 : swapStrategy s' ≠ s := by
        intro h
        apply hne
        rw [← h, swapStrategy_swapStrategy hs6']
      have := hstrict (swapStrategy s') (swapStrategy_lt hs6') hne2
      rw [← choices_swap Distance colors top bot hs6', ← he', ← he, hee] at this
      exact absurd this (lt_irrefl _)
    rw [hsw] at hd'
    exact ⟨hsw, dispatch_swap Distance colors top bot res res' hd hd'⟩

/-- C16, witness: with the squared Euclidean metric, top = (250,3,4) over bottom = (10,20,255)
has the totals 4966, 7394, 105914, 86342, 111230, 119492, so strategy 0 wins strictly; the
exchanged inputs return the lower-half-block with the same indices. -/
theorem C16_witness :
    ∃ L res res',
      locals squaredDistance macterm_colors (Pixel.rgb 250 3 4) (Pixel.rgb 10 20 255) = some L ∧
      L.choices = [4966, 7394, 105914, 86342, 111230, 119492] ∧
      MactermColor.MactermColor squaredDistance macterm_colors (Pixel.rgb 250 3 4)
        (Pixel.rgb 10 20 255) = some res ∧
      MactermColor.MactermColor squaredDistance macterm_colors (Pixel.rgb 10 20 255)
        (Pixel.rgb 250 3 4) = some res' ∧
      res = { symbol_ := Symbol.kUpperHalfBlock, fg_ := 160, bg_ := 21 } ∧
      res'.fg_ = res.fg_ ∧ res'.bg_ = res.bg_ ∧ res'.symbol_ = mirror res.symbol_ := by
  obtain ⟨L, L', res, res', hL, _, hres, hres', _, _, hstrict⟩ :=
    C16_swap_mirrors_result squaredDistance macterm_colors (Pixel.rgb 250 3 4)
      (Pixel.rgb 10 20 255)
  have hv : locals squaredDistance macterm_colors (Pixel.rgb 250 3 4) (Pixel.rgb 10 20 255) =
      some { best_fg_top := { code := 160, dist := 4693 },
             best_fg_bot := { code := 19, dist := 6761 },
             best_bg_top := { code := 196, dist := 633 },
             best_bg_bot := { code := 21, dist := 273 },
             choices := [4966, 7394, 105914, 86342, 111230, 119492] } := by decide!
  have hr : MactermColor.MactermColor squaredDistance macterm_colors (Pixel.rgb 250 3 4)
      (Pixel.rgb 10 20 255) = some { symbol_ := Symbol.kUpperHalfBlock, fg_ := 160, bg_ := 21 } := by
    have hc : MactermColor.MactermColor squaredDistance macterm_colors (Pixel.rgb 250 3 4)
        (Pixel.rgb 10 20 255) =
          (locals squaredDistance macterm_colors (Pixel.rgb 250 3 4) (Pixel.rgb 10 20 255)).bind
            (fun L => dispatch L (min_element L.choices)) := rfl
    rw [hc, hv]
    decide!
  have hL2 := hL
  rw [hv] at hL2
  cases hL2
  have hres2 := hres
  rw [hr] at hres2
  cases hres2
  have hp : ∀ j, j < 6 → j ≠ min_element ([4966, 7394, 105914, 86342, 111230, 119492] : List ℚ) →
      ([4966, 7394, 105914, 86342, 111230, 119492] : List ℚ).getD
          (min_element ([4966, 7394, 105914, 86342, 111230, 119492] : List ℚ)) 0 <
        ([4966, 7394, 105914, 86342, 111230, 119492] : List ℚ).getD j 0 := by decide!
  obtain ⟨_, h1, h2, h3⟩ := hstrict hp
  exact ⟨_, _, res', hL, rfl, hres, hres', rfl, h1, h2, h3⟩


end Macterm
